import Mathlib

/-!
Shallow embedding of the hyperparameter-search orchestrator of the
`snnfw` repository (`scripts/hyperparameter_optimization.py` and the
companion `optimize_*.py` sweep scripts), together with proofs about it.

Numeric leaves of the JSON configuration documents are modelled as `ℚ`
(the scripts only ever manipulate decimal literals and integers, and the
comparisons involved are order/equality comparisons on such literals).
Decimal literals are written `mkRat m n` — e.g. `mkRat 15 100` for the
source's `0.15` — because the decimal-literal elaboration
(`Rat.ofScientific`) is `@[irreducible]` and would block `decide`.
File-system writes are modelled as counters/flags on the state, and the
external child process is modelled by the outcome the `try:` block of the
runner can observe: a normal return carrying captured output, a
`TimeoutExpired`, or any other exception.
-/

namespace Snnfw

/-- One concrete assignment of the five searched hyperparameters — the
`full_params` dictionary built by `HyperparameterOptimizer.grid_search`
(the keys of `SEARCH_SPACE`). -/
structure Params where
  edge_threshold : ℚ
  k_neighbors : ℚ
  similarity_threshold : ℚ
  temporal_window_ms : ℚ
  max_patterns : ℚ
deriving DecidableEq, Repr

/-- The nested `BASE_CONFIG` document of `hyperparameter_optimization.py`,
flattened: each field name spells the nested JSON path of one leaf.
The `experiment`, `data` and `output` sections are pure metadata never read
by the optimizer logic and are omitted; every leaf the optimizer reads or
writes is present. -/
structure Config where
  network_grid_size : ℚ
  network_region_size : ℚ
  network_num_orientations : ℚ
  network_neurons_per_feature : ℚ
  network_temporal_window_ms : ℚ
  network_edge_threshold : ℚ
  neuron_window_size_ms : ℚ
  neuron_similarity_threshold : ℚ
  neuron_max_patterns : ℚ
  retina_temporal_window_ms : ℚ
  retina_grid_size : ℚ
  retina_num_orientations : ℚ
  retina_edge_threshold : ℚ
  retina_neuron_window_size : ℚ
  retina_neuron_threshold : ℚ
  retina_neuron_max_patterns : ℚ
  retina_edge_operator : String
  retina_encoding_strategy : String
  training_examples_per_digit : ℚ
  training_test_images : ℚ
  training_num_digits : ℚ
  classification_strategy : String
  classification_k_neighbors : ℚ
  classification_distance_exponent : ℚ
  classification_similarity_metric : String

/-- `BASE_CONFIG` (lines 33–93 of `hyperparameter_optimization.py`). -/
def BASE_CONFIG : Config where
  network_grid_size := 8
  network_region_size := 3
  network_num_orientations := 8
  network_neurons_per_feature := 1
  network_temporal_window_ms := 200
  network_edge_threshold := mkRat 15 100
  neuron_window_size_ms := 200
  neuron_similarity_threshold := mkRat 7 10
  neuron_max_patterns := 100
  retina_temporal_window_ms := 200
  retina_grid_size := 8
  retina_num_orientations := 8
  retina_edge_threshold := mkRat 15 100
  retina_neuron_window_size := 200
  retina_neuron_threshold := mkRat 7 10
  retina_neuron_max_patterns := 100
  retina_edge_operator := "sobel"
  retina_encoding_strategy := "rate"
  training_examples_per_digit := 1000
  training_test_images := 2000
  training_num_digits := 10
  classification_strategy := "majority"
  classification_k_neighbors := 5
  classification_distance_exponent := 1
  classification_similarity_metric := "cosine"

/-- `HyperparameterOptimizer.create_config`: the source deep-copies
`BASE_CONFIG` by a json round-trip and then overwrites each templated
location of the five logical parameters (lines 113–132).  The json
round-trip copy is modelled by purity: the result is a fresh value and the
global `BASE_CONFIG` is a constant. -/
def create_config (params : Params) : Config :=
  { BASE_CONFIG with
    network_edge_threshold := params.edge_threshold,
    network_temporal_window_ms := params.temporal_window_ms,
    neuron_window_size_ms := params.temporal_window_ms,
    neuron_similarity_threshold := params.similarity_threshold,
    neuron_max_patterns := params.max_patterns,
    retina_temporal_window_ms := params.temporal_window_ms,
    retina_edge_threshold := params.edge_threshold,
    retina_neuron_window_size := params.temporal_window_ms,
    retina_neuron_threshold := params.similarity_threshold,
    retina_neuron_max_patterns := params.max_patterns,
    classification_k_neighbors := params.k_neighbors }

/-- `dict.get(name, default)` over an assignment kept as an association
list.  The scripts never bind the same key twice, so first-match lookup
is faithful. -/
def lookupD (assignment : List (String × ℚ)) (name : String) (dflt : ℚ) : ℚ :=
  match assignment.find? (fun kv => kv.1 == name) with
  | some kv => kv.2
  | none => dflt

/-- `grid_search` lines 208–214: the `full_params` dictionary.  Parameters
missing from the proposed assignment are filled with the hard-coded
defaults (which coincide with the `BASE_CONFIG` values); names that are not
among the five known parameters are never consulted at all. -/
def full_params (params : List (String × ℚ)) : Params where
  edge_threshold := lookupD params "edge_threshold" (mkRat 15 100)
  k_neighbors := lookupD params "k_neighbors" 5
  similarity_threshold := lookupD params "similarity_threshold" (mkRat 7 10)
  temporal_window_ms := lookupD params "temporal_window_ms" 200
  max_patterns := lookupD params "max_patterns" 100

/-- `SEARCH_SPACE` (lines 96–102): the declared domain of each of the five
parameters. -/
def SEARCH_SPACE_edge_threshold : List ℚ :=
  [mkRat 10 100, mkRat 12 100, mkRat 15 100, mkRat 18 100, mkRat 20 100,
   mkRat 22 100, mkRat 25 100]

def SEARCH_SPACE_k_neighbors : List ℚ := [3, 5, 7, 9, 11]

def SEARCH_SPACE_similarity_threshold : List ℚ :=
  [mkRat 5 10, mkRat 6 10, mkRat 7 10, mkRat 75 100, mkRat 8 10, mkRat 85 100]

def SEARCH_SPACE_temporal_window_ms : List ℚ := [150, 200, 250]

def SEARCH_SPACE_max_patterns : List ℚ := [50, 75, 100, 150, 200]

/-- Membership of an assignment in the declared `SEARCH_SPACE` domains. -/
def inSearchSpace (p : Params) : Prop :=
  p.edge_threshold ∈ SEARCH_SPACE_edge_threshold ∧
  p.k_neighbors ∈ SEARCH_SPACE_k_neighbors ∧
  p.similarity_threshold ∈ SEARCH_SPACE_similarity_threshold ∧
  p.temporal_window_ms ∈ SEARCH_SPACE_temporal_window_ms ∧
  p.max_patterns ∈ SEARCH_SPACE_max_patterns

instance (p : Params) : Decidable (inSearchSpace p) := by
  unfold inSearchSpace; infer_instance

/-- What the regular-expression scan of the captured output yields: the
`Overall Accuracy: <float>%` marker if present, and the per-digit
`Digit <d>: <float>%` markers. -/
structure ProcOutput where
  accuracy : Option ℚ
  perDigit : List (ℕ × ℚ)
deriving DecidableEq, Repr

/-- Fate of the child process as observed by the `try:` block of
`run_experiment`: it returns with captured output, raises
`subprocess.TimeoutExpired`, or raises some other exception. -/
inductive ProcOutcome where
  | completed (out : ProcOutput)
  | timedOut
  | raised
deriving DecidableEq, Repr

/-- Outcome classification of one trial. -/
inductive TrialStatus where
  | ok
  | timeout
  | error
  | parseFailure
deriving DecidableEq, Repr

/-- Everything `run_experiment` produces for one trial: the returned pair
`(accuracy, per_digit)` plus which durable artifacts were written. -/
structure EvalResult where
  objective : ℚ
  perDigit : List (ℕ × ℚ)
  status : TrialStatus
  configSaved : Bool
  outputSaved : Bool
deriving DecidableEq, Repr

/-- `HyperparameterOptimizer.run_experiment` (lines 134–181).  The config
is written before the `try:` block, so it is saved on every path.  On a
normal return the accuracy marker is parsed (absent marker ⇒ accuracy 0.0)
and the output text is written; `TimeoutExpired` and any other exception
are caught and turned into the sentinel return `(0.0, {})` without writing
the output file.  Every path returns: the function never raises. -/
def run_experiment : ProcOutcome → EvalResult
  | .completed out =>
    { objective := out.accuracy.getD 0,
      perDigit := out.perDigit,
      status := if out.accuracy.isSome then .ok else .parseFailure,
      configSaved := true,
      outputSaved := true }
  | .timedOut =>
    { objective := 0, perDigit := [], status := .timeout,
      configSaved := true, outputSaved := false }
  | .raised =>
    { objective := 0, perDigit := [], status := .error,
      configSaved := true, outputSaved := false }

/-- One appended trial record: `run_id` is `len(self.results)` at append
time, so ids are the positions 0,1,2,…. -/
structure TrialRec where
  run_id : ℕ
  params : Params
  accuracy : ℚ
deriving DecidableEq, Repr

/-- The optimizer state touched by the trial loop: the ordered history,
the running best, and counters of the durable writes `save_results`
performs (one full structured history file and one sorted summary file per
call). -/
structure OptState where
  results : List TrialRec
  best_accuracy : ℚ
  best_config : Option Params
  historySaves : ℕ
  summarySaves : ℕ
deriving DecidableEq, Repr

/-- `HyperparameterOptimizer.__init__` (lines 105–111): empty history,
`best_accuracy = 0.0`, `best_config = None`. -/
def initState : OptState :=
  { results := [], best_accuracy := 0, best_config := none,
    historySaves := 0, summarySaves := 0 }

/-- `save_results` (lines 240–264): rewrites `all_results.json` (the full
structured history together with the running best) and `summary.txt` (the
human-readable summary sorted by accuracy), modelled as one durable write
of each artifact. -/
def save_results (s : OptState) : OptState :=
  { s with historySaves := s.historySaves + 1, summarySaves := s.summarySaves + 1 }

/-- One iteration of the `grid_search` trial loop (lines 204–238): append
the record (its `run_id` is the current history length), update the best
only when the new accuracy is strictly greater, then call `save_results`
before moving to the next trial. -/
def gridStep (s : OptState) (t : Params × ℚ) : OptState :=
  let s1 := { s with results := s.results ++ [⟨s.results.length, t.1, t.2⟩] }
  let s2 :=
    if t.2 > s1.best_accuracy then
      { s1 with best_accuracy := t.2, best_config := some t.1 }
    else s1
  save_results s2

/-- The whole `grid_search` trial loop run over a list of
(assignment, measured accuracy) pairs. -/
def runTrials (trials : List (Params × ℚ)) : OptState :=
  trials.foldl gridStep initState

/-- The trial loop composed with the evaluator: each proposed assignment
is evaluated (whatever the child process does) and the returned objective
is fed to the loop. -/
def gridLoop (trials : List (Params × ProcOutcome)) : OptState :=
  runTrials (trials.map (fun t => (t.1, (run_experiment t.2).objective)))

/-- `itertools.product(*param_values)` (line 194): full cartesian product
in odometer order, leftmost axis slowest-varying. -/
def cartProd {α : Type} : List (List α) → List (List α)
  | [] => [[]]
  | axis :: rest => axis.flatMap (fun x => (cartProd rest).map (x :: ·))

/-!
The `random` module state.  `grid_search` line 199 reseeds the global
generator with `random.seed(42)` before sampling, so the subsample is a
pure function of the population and the budget.  CPython's generator is
the reference MT19937; it is embedded here exactly (uint32 arithmetic is
`% 2^32`).  The 624 32-bit state words are packed into a single natural
number, word `i` at bits `32*i .. 32*i+31`, with the output index kept
alongside.
-/

/-- Mersenne-Twister state. -/
structure MT where
  words : ℕ
  idx : ℕ

def mtN : ℕ := 624

def mtM : ℕ := 397

def mask32 : ℕ := 4294967295

/-- Read state word `i`. -/
def getW (w : ℕ) (i : ℕ) : ℕ := (w >>> (32 * i)) &&& mask32

/-- Write state word `i` (value masked to 32 bits). -/
def setW (w : ℕ) (i : ℕ) (v : ℕ) : ℕ :=
  w - (getW w i <<< (32 * i)) + ((v &&& mask32) <<< (32 * i))

/-- A counted loop `for k in [i, i+n): s = f(s, k)`, the shape of every
loop in the reference seeding/twisting code.  Written with an explicit
start index so a long loop can be verified in stages. -/
def loopN {σ : Type} (f : σ → ℕ → σ) : ℕ → ℕ → σ → σ
  | _, 0, s => s
  | i, n + 1, s => loopN f (i + 1) n (f s i)

/-- Body of `init_genrand`:
`mt[i+1] = 1812433253 * (mt[i] ^ (mt[i] >> 30)) + (i+1)`. -/
def ignStep (w : ℕ) (i : ℕ) : ℕ :=
  let prev := getW w i
  setW w (i + 1) ((1812433253 * (prev ^^^ (prev >>> 30)) + (i + 1)) &&& mask32)

/-- `init_genrand(s)` of the reference implementation: `mt[0] = s`, then
the recurrence for words 1..623. -/
def init_genrand (s : ℕ) : ℕ :=
  loopN ignStep 0 (mtN - 1) (setW 0 0 (s &&& mask32))

/-- First mixing loop of `init_by_array`: the state is `(words, i, j)`. -/
def ibaStep1 (key : List ℕ) (st : ℕ × ℕ × ℕ) (_ : ℕ) : ℕ × ℕ × ℕ :=
  let (w, i, j) := st
  let prev := getW w (i - 1)
  let v := ((getW w i ^^^ (((prev ^^^ (prev >>> 30)) * 1664525) &&& mask32))
            + key.getD j 0 + j) &&& mask32
  let w1 := setW w i v
  let i1 := i + 1
  let p := if i1 ≥ mtN then (setW w1 0 (getW w1 (mtN - 1)), 1) else (w1, i1)
  let j1 := if j + 1 ≥ key.length then 0 else j + 1
  (p.1, p.2, j1)

/-- Second mixing loop of `init_by_array` (uint32 subtraction of `i`).
The third state component (the key index `j`) is dead in this loop and is
carried through unchanged. -/
def ibaStep2 (st : ℕ × ℕ × ℕ) (_ : ℕ) : ℕ × ℕ × ℕ :=
  let (w, i, j) := st
  let prev := getW w (i - 1)
  let v := ((getW w i ^^^ (((prev ^^^ (prev >>> 30)) * 1566083941) &&& mask32))
            + 4294967296 - i) &&& mask32
  let w1 := setW w i v
  let i1 := i + 1
  if i1 ≥ mtN then (setW w1 0 (getW w1 (mtN - 1)), 1, j) else (w1, i1, j)

/-- `init_by_array(key)`; `random.seed(42)` runs it with key `[42]`. -/
def init_by_array (key : List ℕ) : ℕ :=
  setW (loopN ibaStep2 0 (mtN - 1)
      (loopN (ibaStep1 key) 0 (max mtN key.length)
        (init_genrand 19650218, 1, 0))).1
    0 2147483648

/-!
Kernel-checked checkpoints of the seeding computation `init_by_array [42]`
(`random.seed(42)`): the packed state midway through and at the end of each
seeding loop.  Evaluating the whole chain in one step nests deeper than the
interpreter stack allows, so each stage is verified separately (in the
theorems section) and chained with `loopN_add`.
-/

def mtI1 : ℕ :=
206693222109351864093044167498080392899523645906368546414535011666849621100804277436341002096490525909800582893776140453706631407598282328010619278996421501451329044394154588969165400368843997132383228656001723120710622389276630004324957533750118716952950276440098566166453524998399370109057823043628415771520815213551762392242882449996989983517215186680497465976155780859188333579832071136771144930696980641733183048889646524693951502605225107238574153176995623074916629450761954890530725034778956876534379297073742711789094895459640243346919057898506675523162171788542813362994491766759594305668505844410840427432297129154815535042236805898823268357478286704453888476226223276203479525449665912467231420649951950585002733920719755450472729951855083719594541272116254835206126551529377605703318984948411684066111914137305144013206503896146381698020683222083742370850762921467670243146372083391066085286992068221732787658190274228639253598697254629248545980365632349218906460410409500065116584312704268700161598649988316055512236228441515717965186047958463042351286425316204232594967059723673824501396241622165644427504525496512586162867569871532393455118669249536858882716417296164386498468027240782255208116419367808081615507826373956953332590221935908767082364573898375525216950872125443595846933789716460388705069181489098106276138625644761509191723954827823988188622847506812074927072640684206090754696110653187235284342341829823852704232277895197234182788539998142069123105831717663330510849980905325985071321581974241725591221866704283475956168106387951465434800669708418867303650226673039416513689826567899559166166082757363471642612675633366049928256027694185233784147934168065010883053064357277214494539850734567038508273070513450153019568470218120067018714379090778569968878114128346180552541587541615170869664651559040257450283488608665598398923148141224095352216632310835896190765834067587295750908396260140626399719611485989869997433529918939899403486180651958513637537477739061728151826113791216347948563154488847003097147531186788165544878192071772538303103467318478149103904666692829371740969829991504679023149196407138461507977981743297886449274947996844723292795038998650955072008081552630851864320276182414256490943732768768196342608985835844102624310985853007167566060243513085293974020542551895887433660184860360469772377240070906625998533763315175381536630422718651573713697738010285066088545026555226960983526640813649860083899178435522085873851814005515979304704672811803641583248296798924614025859622427853492118850344277921309654510874644035427398543080093954012031030155485261036778990512632979094366824185115479834239591740366562941444782443725472085281910778621256729407933379473253551018369505410087836731167791777480584755760426648621561016059195899354944856065488985425630368520530428134640662386898011523310169964119277789006113828085938511478188101966128231083485082706320539254778892287907006481728006142470868768523282912616033590832561403616464572130876197293276255914

def mtW0 : ℕ :=
62685089405509111925910797243914719854890513935494713084094713797279779630627496305943786046941309007281293105221577504421353501605599255248785149356818580886163074212016138319710181437623915839386196989339984175865611290932895638485827512283879634622589907034847096838980553398268338905605705315464924834076955485269257682765843392777664062904318116756644819538761883164862381873685805923051342196114892111881287659915424456096361326051748180740843339721465950121631833352165428366344241754810081140762710579390137795215443629123183303201044796731629341661542390258966032612552126580439913324626563213547393121217728067632048719897064596438939163041106934301355643192260261867872030533878188557727018817797219012064641958276099544136480610826250078810896212505254064619595899307426216931651016613164877613570296351724055264357110051005104450572173606849938075379012356137114572525910752676385589168436483206759652170097284388598518122222819376116616668668677988651997615236221431416155794821321118852088948452164682783715959922435191327367306488124638818446090532334864386359317233873012285172875896330714873881780586230596002778688422250420590175698633544778262136505069053046737202152515000629854634631225453245996997340762744567896897683212149150732909707719966588817675821630380251456266588599804209831660991462715440400663143017564651072677052296295930367391822676512661642282350234567553218318066651318510488484545671729568971887621684270732981974442582657502555066960418690332945218280990034155505553171409775830458482159957769211244505225186771766058316021949327301666418107251589707938065072144733816368743637495699897181007119363672460040974223449086641663004605507793014252452324150238463715514559124307431648478948480649031081489229583165223570218974125422263886587593014744330199975749832650568652404661542746543584685860761547297457070273167102314576665676644281998277713093924236551494770138725647883566971887853912300960949802636372591951717316415323846182747445131420005722224687602711525724505110953736568981699982016588947035894059736087136235396798804019434387781559696138411966704777989194870090051835909943079457649936020314680876367897457337488804889342331824364904005266943816631681518612047693872607083945336048154993001716858914072302230374294986610531277637599664647525761147514008899238689946802093944865612982597431648203028809043429562401771290925843222821220221381984318518256971016750121270624021542153515130386081256853244444367484914891752438843250797295149886721543902585582757118492217204960123203770309672216674331373413106027454841661967870247822106376003696537006476355273043676224973894002060133928765135363584693312631060562155459381152426642778209514491263275588735458188352331628933634618912177576995916817414488324819680108333628484452298807271017999262374749573133359090629722111402666396222385680310709557844049479865847370371052888681758484468279513921172987571336140289500145715018352119752770038578015899178947425013401300127437407370742417936980607757405410607208376626705322894782663757703548808362869195819947150150865798288136994832911439410269353230208345410503242199606186650417333579047848825834242257112060317620885151293421378661990197161958015730358249113963865616811805417654957899792836277351433146683316643158745577273742588847277405020330699298979666450169324546781433015633218213248018986767013905101885085728066131985273947793365444250280947765884488609302913437528001802423347517836456663978922564542901160075954132077499502061844004777463229898312792357201472450520034421742281215395838957029567457078867297742321364249618062920323524100796395855490398720473188748064226082130624085325443879193454095100721902723688608983702297802922465778395428510531587340343771240068168890882622394112252370643121994567113348850616779414952571984309063927162547038575769391208822294299053225776973195785292510157058775147687493667385905281728614066936870793483631104130486096422866739022254251631022238998824784309871214211336594149372534724828516536519652291847191320934127662041939033266344757810255450761243406685982638804631309022215852991706323223872506356963395668107287976200691035733250165615782065576159415303394415966535152327550107294310945533761757937224536792146711105700674959937207778503501562879445241463662142281185819506210181780721218897488871995890898495582077564387715740371190275817001449471008660140255770382875594805433223352833476546594040372715841292252983175468170554585838014797017976570586587751089146553833551413146641975370517778330202052282190648141351908509904289169596729111939424597802445523234111653813513351586367960175769546506050051493655326103823629699245586418016468660736051425039803522537493270385743437525903109563398688573456345292160567787373069854610200635728800730405759403691875432721043746233636765094325962472698626875833148826372580999341547042531665331710768365982359935219565301595187067772247975847412037958098451506998773182171027695752045356894447709388159633645629545493246019135820915900506906032640701290570506299065346661219735445730896769091171352761432210047450382980030625592142825700677633624952217795344145832513082782540989616413040988227257601039794195623143595351637462190706636535912449334420058581521218743569834717812580171279915160794789675762903718339466089866492140118823551337811927493524761760551434001520245324751568861558716803095718510972066599595072196209156923318071322517301806566620458899402166430591631348363311478802800521980525250372511467674969151489645720009661369785217086930227581405674315978920044798755483144811069077253851302610194739624245401270682864202663540116818822475326676741780611737275972111438408802370422377608919256570335384654037352344114105999356653180812503717835632673409647782213628400383443178293619326757139369589058612122088577237252104060778375287897543799460272211546791798613974575310224299012205778134871255296492395729078221387894808011355820153110205338707003138385845672884757408327786763143168159295742358655797897448897721796416755370

def mtI2 : ℕ :=
62685089405509111925910797243914719854890513935494713084094713797279779630627496305943786046941309007281293105221577504421353501605599255248785149356818580886163074212016138319710181437623915839386196989339984175865611290932895638485827512283879634622589907034847096838980553398268338905605705315464924834076955485269257682765843392777664062904318116756644819538761883164862381873685805923051342196114892111881287659915424456096361326051748180740843339721465950121631833352165428366344241754810081140762710579390137795215443629123183303201044796731629341661542390258966032612552126580439913324626563213547393121217728067632048719897064596438939163041106934301355643192260261867872030533878188557727018817797219012064641958276099544136480610826250078810896212505254064619595899307426216931651016613164877613570296351724055264357110051005104450572173606849938075379012356137114572525910752676385589168436483206759652170097284388598518122222819376116616668668677988651997615236221431416155794821321118852088948452164682783715959922435191327367306488124638818446090532334864386359317233873012285172875896330714873881780586230596002778688422250420590175698633544778262136505069053046737202152515000629854634631225453245996997340762744567896897683212149150732909707719966588817675821630380251456266588599804209831660991462715440400663143017564651072677052296295930367391822676512661642282350234567553218318066651318510488484545671729568971887621684270732981974442582657502555066960418690332945218280990034155505553171409775830458482159957769211244505225186771766058316021949327301666418107251589707938065072144733816368743637495699897181007119363672460040974223449086641663004605507793014252452324150238463715514559124307431648478948480649031081489229583165223570218974125422263886587593014744330199975749832650568652404661542746543584685860761547297457070273167102314576665676644281998277713093924236551494770138725647883566971887853912300960949802636372591951717316415323846182747445131420005722224687602711525724505110953736568981699982016588947035894059736087136235396798804019434387781559696138411966704777989194870090051835909943079457649936020314680876367897457337488804889342331824364904005266943816631681518612047693872607083945336048154993001716858914072302230374294986610531277637599664647525761147514008899238689946802093944865612982597431648203028809043429562401771290925843222821220221381984318518256971016750121270624021542153515130386081256853244444367484914891752438843250797295149886721543902585582757118492217204960123203770309672216674331373413106027454841661967870247822106376003696537006476355273043676224973894002060133928765135363584693312631060562155459381152426642778209514491263275588735458188352331628933634618912177576995916817414488324819680108333628484452298807271017999262374749573133359090629722111402666396222385680310709557844049479865847370371052888681758484468279513921172987571336140289500145715018352119752770038578015899178947425013401300127437407370742417936980738455304137284431084381239360403362915983463134679949187798061689403573080465775647209174644291801373034748341292567450595097089421990343522847866615232611452214867722179708124029325674911875178612843024186601906115005580552642422321453433941752595264772438440170141836387576158886351375031751180704088488980053780139936226258931132673040354207694199354803949662490665944050623979966650943670448681124798896747908636254231444583744826068353475285825766686859132645838267491278590459348817949669190509824691554267805141195311944072653780422124422040408801662949082835768993279165488421242539384427492232531526318772001878399897790963700436549916352385062508397331144326508500922791606939942331669250556710734577184430815453456704894574998717392070785342130187805669063162204466224433579103956180414295878767016993479542419059527208513383894744900612060383028941315950134131390533011791504278003144894195744619620789154756513851215420791879131788663591866987303131605930899488427109468630330829637245158076847591699647709330919366853515007784845526727744289308819912594175738615826352087329035534302281874176058642871304896305177719829731473702784665409090027215648308928470333697989738249741328872950197770335079937891374064208510319745887264535239773011436708666693462158165177746655989086599143718631674574276617354584432964193940522143047997547289264727108968137690610866449520090694632542126571582354279900387497865104945892916675468957416355113135893790033532687599230261448170596177391935260550989747920200521907052271749693871363240112291603941125450349715637244371138492820051059560102395890419404783465190826589608091671440235276689198916012462360967971105358817851810077942474567822079973664630079720777157004147776250886707997484323391591458946803151917449177971108779561343940518518175949603439237017335668373333594151129258397128948571452040134800129355350061046671359982305849455139190795862963647518921459883516017207943696786922457252946123867973822638196186868109036723000834080543948442768558433263315628902922412891595023609039642864992566409680276151338248952692284542564838397868863135613238005416016124211745789069486741468983879611366145392846302165693634089505534105145834084717608921011885663332741764593938086665731565430345803655616452809737771652075004221109280335978282410236563600152035366231388447816269291953594668095734122420169601196836404921149019431461800418013376739685601417539517786075521302253940427304879432320777044291147432969322633011461758433653255170485043788677789645898187741802387268534923968447070050487430074772245297435609653871066922894734188318203564359052896373250436023399169638564542365567480483150849811305245860080518077938638449550570277097833924666118424827254282431616041044677740452236832289917492482442387084006471368709186381381328765090632973634932537653693926696904995081792695668303485960532489585630328825240271175284898795174731117586390212833410501964420935715428660053761260038445054258017866899898986717688175979683039316985345083381780305578

def mtW1 : ℕ :=
33773506489637007645896830947751417851180265331228644372364518344875780168543153467881951181163862181286862698808829125290124627175686731869800874741307487965548930355266317783394240298830462487933448378572569367908179565462266594376627242036896706165965298232266834825444902647263860469080165516091875825188648710781958794987588984859700453180382178219353431089271034305083998723287183733348150441438228622618559382013764620383597058885593312774258240950679662604944697652560009591489741090435626475934666280605555195736731843666926019682589081598391160934762701154692050794442636217272039551770777689096408046771493987934781153455743049842145478093221854574186393743810311013663501714229088997284543044218674738424416385968770558136278866955777095124704735164117873905166250685503757332122564607628479344032566655939644704581548008277138690091575910290196390970376768858214919724058449339084587776718812550676528522169023778245368536626048133657549629430184060440799225701169391785264317567834528226883071807892435034067842673728492881635661593023582745385676224291324157697048429575827289853979478063252892687743854529886256153124060327221473687350266519969238003964853121962627802989864941081280485100942407377781788260385980519553818819930199438938374275704597110041637528827679932504137245089410381619775415752050116198407727659860461313118485789625295737585551627620320004898122739218546602762137095402704902124439898328009382454226227607122338919403997342627457836655912577785881737460049474636970495558073683479824398381762473355001415914823298209079466902912005781393189906894767711926072224052269127170984669585989203518786946549302630473038248835237230615396042649483021731352142638203851727985513898990983406914967220762427359730243419744990538091226168033070786769366992436808826473913210609912938229579972164363969071005685130716646011420702081420416384481288726757550236314603192767479786611776764522444376139418035330017688722194657593472817933698936411960869867356419443574657039519834751055280561855100146829203672363825831860134996443718368634795979628521856894205399876277128685891923766447379782363157353599465332586258297697961188260902953793009820214201795911764423185834510092205950855262676797488161498298653524334435216164022932227646500304276717509065131141365920796616816951569139907017662998109752663750660920737484998152455813006176361158981231790068032102898826487004770385290021323650045480836285750017093467862681663542388322378772608559897414261994736815884429750604574733498251614725672172513855578910584419130548420039229671240468021073057760357840285208319549422829443246837482820431600169157700780949354422403093037578420565471351562117466120658177697721324383724202721286454937303796836031571483014896696220232675310472367294638103805272780292281684023915331497831335716626159811129905946219257271221544692537825685211562799484075177381644990161283240409398788486135486172758805495128709566901136219865897453408380182692704805722202091617702156784707514173572772834376659601457245606310535840316216263781494922069575336130988019101044632912998335894966769237394293464411320824791805136310560436777231548601431081217224078586495854800142217139711463809728287879841465514197704647171032806105713626413370050164619062022980306906522015128612900352363424708038324992099411629643518664975552266525038327131694839879586243387751445433189473605470156862524456362518625941859233064097537391433529233717294506442018270772116543006037780174729184748853598711190216467464513403977439401168572627799625651942412164370285832383869953734322973298947097109340771240901488336975341535514335112220190013350276146318758772368322567440517531158417126927278290244362955572874462871683518938849155653148086678084653170880079148064626762945254058974602694218572177541859909245966554526961950248816009479740623005142883646682171481558803939344253423735072691027740446370402104599350470391310391971149567269350867587365874152030282052401068347176449994588253289668410666245315478900579005061610899499460753858092226090157159977023888966471310939343534302106495227958325439240274113164166804929644414645913888124856392735471881339513750468217566144794226200541507767028030553725479794100477817763753690254306923764138656292191545653842520014629674638233588037938303806827284632838384282297018824776114720045821529975457075847556025734817163304131839487802766401669664297541407219629274362821351326148586743716819088104495709460022203627184309023262398855491767699981800055250618884468080460864761907202505662059411060536721197642107108889482764981027444071665362197958771204607738235635023459578898629181282292527874880604702979012019049302611523234105212131050361508669400273969219769911272662367709021174025307116335353968598799866504519218206082554325704339008919879080475156237337957326606198376713061028285669661785989494994441561049445456802811521044021914213208480112541420367251023514608355998180289510100622809895811036822049240812369009658628415843816844626903403464028490666785875226139120165232214878960447862155287149491656772933447255092269989812503187996079285490646061728711835214649709503671389764046672815754720803609108082983725799268208736751513316847774644809493000046015162079187934953846500013574321506395544350131439330545510374057856648232545677040852151022594062956797643747235954145680667591306317596065705421137305984649975778527611050733952255796730908250050311764550327208727861600810808724255730329422514088285402594722537044648308136453695668387477493044686127545177361155088772117897654102470551749482730231839413104917298116909332179369925906916001163048282058943312039521281934398155680168735527045172224934539817316344506854306245840779987668488240919263435540105754224717989455349659657272590436010546962156119699214093591019429475933622294573359672417385737118270844339214178809065080896835343898543125407555332083892593758145879518570685095346550227312832111634374826082157819753075628595279534836940847034400018114577390146369902483091535267852010285416983

def mtI3 : ℕ :=
33773506489637007645896830947751417851180265331228644372364518344875780168543153467881951181163862181286862698808829125290124627175686731869800874741307487965548930355266317783394240298830462487933448378572569367908179565462266594376627242036896706165965298232266834825444902647263860469080165516091875825188648710781958794987588984859700453180382178219353431089271034305083998723287183733348150441438228622618559382013764620383597058885593312774258240950679662604944697652560009591489741090435626475934666280605555195736731843666926019682589081598391160934762701154692050794442636217272039551770777689096408046771493987934781153455743049842145478093221854574186393743810311013663501714229088997284543044218674738424416385968770558136278866955777095124704735164117873905166250685503757332122564607628479344032566655939644704581548008277138690091575910290196390970376768858214919724058449339084587776718812550676528522169023778245368536626048133657549629430184060440799225701169391785264317567834528226883071807892435034067842673728492881635661593023582745385676224291324157697048429575827289853979478063252892687743854529886256153124060327221473687350266519969238003964853121962627802989864941081280485100942407377781788260385980519553818819930199438938374275704597110041637528827679932504137245089410381619775415752050116198407727659860461313118485789625295737585551627620320004898122739218546602762137095402704902124439898328009382454226227607122338919403997342627457836655912577785881737460049474636970495558073683479824398381762473355001415914823298209079466902912005781393189906894767711926072224052269127170984669585989203518786946549302630473038248835237230615396042649483021731352142638203851727985513898990983406914967220762427359730243419744990538091226168033070786769366992436808826473913210609912938229579972164363969071005685130716646011420702081420416384481288726757550236314603192767479786611776764522444376139418035330017688722194657593472817933698936411960869867356419443574657039519834751055280561855100146829203672363825831860134996443718368634795979628521856894205399876277128685891923766447379782363157353599465332586258297697961188260902953793009820214201795911764423185834510092205950855262676797488161498298653524334435216164022932227646500304276717509065131141365920796616816951569139907017662998109752663750660920737484998152455813006176361158981231790068032102898826487004770385290021323650045480836285750017093467862681663542388322378772608559897414261994736815884429750604574733498251614725672172513855578910584419130548420039229671240468021073057760357840285208319549422829443246837482820431600169157700780949354422403093037578420565471351562117466120658177697721324383724202721286454937303796836031571483014896696220232675310472367294638103805272780292281684023915331497831335716626159811129905946219257271221544692537825685211562799484075177381644990161283240409398788486135486172758805495128709566901136219865897453408380182692704805722202091617702156784707514173839271204453056767213285168986137179305464995407388237373575209852894962330098249017690017433319440333838810624040130704337358821690973913772043835913434842699383810402279120044275567326155043201410113778825148197609175028490738195676562099903562970664434063872480575007877303092566818991458850609802200719613199761316984701802288335911262324267899162540599794877233275565831758200712794125243224230371918760169905205439047436871079846940006094778303570214070864450021486431708730066915958021589345982237402335724393391493269245806729390956487631039038434013420723136898544507500295050993884176955028465169247954525726659929157572116135705402058214259018387616419342386505743663795111561006304034316921825150182169424091431647635135135101675797161153669398956209684683415939269884578718119625725476619217048408689532065590917802590914226631508139560411132214515497432925163647644472890757581941761984591083114780822810876296753028399546937945595069513918146568863359857040878374940091643757040013978920262567075678132144417037357129554218340141993776047643826118120459117687487648804747941344242733086373162274963375302940093361033195064199558431854086407667125563416574245790766235040667847659004865675023226692606435514531247682033477949495333594966578013548213168740868592118024245720593415706864869849000390044395367274464039140690013068255923707207964443570782716886764388004163699111674207398093789054987775431511397541582148550493687224776272091110510076617239902075746322059474243703404315731437551990580193873981390593089425271760939819391742515584361084403785714577075402994077551549943160892083810099461141491012930741535306618685031448587073886373734555079439335116416977630845550175687349505787357560619096730666963484163354841606353545771896318895798783875067837637163240698862797472304742051579531047609114176445140265923888207998079728412542117502061837600307489240269658526772292400803259213366931661633507921720645000089825699333541221568411765965420955588673746642492890314123253608425532992819574756478159125735472255917545252566214431494098091555194196847645296673952116015664477796415276582356965241990043037186122986098833902584891051418821683744713515007309304295930697554028663570062097021181884230951588105240539442313520118694439431267247501120367706779966800395081807780614797062938070855839307295015128956173738492722412650481003452035880485880235891006503702092301312251764548758738113139330979209962878329597626396154936593566934139947097208737817266836909929463926770252644517263263481349125380972223221518202032565201473513661762729662210594377340446930218996302578111537611033527268150448077175093572012965899349660367844202771052910368201184932684566807277253948601707719676897165445591706619364899625178535344778220757596280104743843745813393169576990092641679602774874222655425449539143143948644712377928655674777638861288738421059422297326043912459836501803439866715103905711051067779217236079023756675393123115824359383081014885560560021252776813878743708795195930479382217239

def mtW2 : ℕ :=
82663673431515298878348125892076922365783069757798526784244050598313937512767946555105567842135433541961268832679564447481930064532585187162994848009574585122686978465536439186381119346285389971015664497868787229171546936942409743491868498635940684276698436506858484119070421511331132895304993849329208393304167080010636930173614624441936828135292295563718855043520888652492240787378188287948756429859678131320313149722218900291805028338565883078467138401494859521575283099145981678792121605979857514686793130943330313770376111649808959951136893973580829458877602381614555916176041877040780308989402930592924948451008392659903891078302468096510073054561268220357432569293521497131830922044988516040316696461890252658891937812137077698326841028526045017829237605777094083838852105281119467999132979162337968258864765593801439178690440189871328494739303638814863268844841313736550299766837110548953858269079978575300077403214500257399917385654509269855280076866593554001298152333401922224966669026142300705073497006787091546588638315672230373963619276949115860857537915195517971528759783091402967302621538207894751586345254545658890812158326957740026680361046254661091788809833141626179961244339817613410573958847339378373187693619441538637775379117387231005821087272257887575588666415472628576633153140593663370835676581874735924421676041910321962267240021638441198216858885623188152818149414018042869563767627928969512731857081428011617730744208084126530327493218283188330237634627043385971325726381941006315313020942714598258310683987876910665727287731188639790124681293867861646234928635170596055347748876320543460563710598217691119774835137262721653203268760315335132369835811988465882558753871413950567187950888491278778708993179769359589212223140338911648929104812059421030013898069576284523018150963896668952801120411674791778429096110671166995381822858827748143835556358862070943257843870596573540637319545893499686427023193503527501212077208886574386377910506614773834017585095571295086219028523946090089278153258661151101652418776500307460700083973906927280045011707987505449833896480127873306359431148607415078923831461270087142319684009331203361762220712446499023695587145239836507803911814882161915063108199421454462180373951176940080591277458243306990424535174590565608117888570339351020282643416147931579001026071809341119535798341882348591866021341816283858477697743453078021468501089065876249217344973525146889733762953917240334288868075485850723093607653871568457710689630971657574294402882195859207485343534840350175651994341004124212724981721578117943060373849165947808571471891508735080997298866016147935597339741326699207245466538208100666522864891933314470052847443745362970439547486838679354253152706760662870260695765537519959477479236623427719242905028476959368576490782805659127625261440007910351269462263618011075338316276799690902972302414342081963789515076393143995054867467145996471721122262153391442956285601802605476397557566559450267605107458855443216396947043236466552312718601892346433056767222165007631025666329375837184765840658676984284898489439007535391352662806494262031897013250263783539285102395455285405586348388035372015632823519802485179765492948982546612526153800948715917650443950850763563724409276334725236486125780651617723156297129367448296429400501658864742787022386577801752109777995373643436257912637333933711048378945228596862424214289259619104637366641443538704731253676073244211636412676550633624664133121478778776111533665195661274450601309176889593940105997537866071103429448805421406604198813742993998233955753216345778991410288420119110747377910893206478621845275458581206595814392549010399578388394455596558399177559012440595257880737519332053733088704345198907442504378387452888582487598736159677336669375019252418034169126276810242464452009879946391356983340052344519479660054088553061453767842109352665840972474712870381811517528648921344229102378851273254037244071546208559258016189186158802618570846122407575805735030986258251196917519792348510966228747838123198341870470991715526936441643149113847485699378420789111139857383241164952960343291754521639145070355966654445817548644348650273031627831871495744424251118353351051222881461179282505742625883322828268681808442704003090495155928716789727084061892349514338658395371297819336306263603709114744903843904591124462052342531061608033894644700791602929417769154835809424656043301921926405984733455919977169569562649687764138614136181729139101193691064746253805507687858731219097977446277929944857559114214479159089992700650344331766417996128520977707702114605234270300941059024559973626552283595879490977810574097596817932342925187862210088032263679453624373251399815432164509970923732755899633213695217078969529292889501568936211411421832673008676464711723258486764387687868195022143610469168114413816692593499503362135502793949170225772523155861923786490569333307891612009190037098908912854496416224567772506087995574471691774742094533496432215025256857202341100016144546835039088618003145675471911061031651823919108846562898430344438333412649773016774319745863312578255622591730450250454049581974952521575677756510885726227820993325710142791982262002791705187233974393058765755898055574917073353369401448705875691147668673637031620118190837133060462247401748650653817816500141693022196589991967774605824182010372414700031888464714730496618956601046353021989592591742320641287758643958518097449941404447696168491179816629429129771105998930717437864821069172069443993350771034571599696711991967256208924709477644996763434696889220399136009975669525716352049291399547346304876650638301401301618762213031777838267774121901738861940788081719129371439913104498129403320815411623744192827189151602680112510742587865501506308134080999842352934760391759277333729625584783607717610692317409767482322713453654931345215458341138477248249917257282357085856207131022595584665377353030892790299412394424181800230114513106055999290234221809887012605716481381181377152610833997359650142432360208923679629717

def mtSeed42 : ℕ :=
82663673431515298878348125892076922365783069757798526784244050598313937512767946555105567842135433541961268832679564447481930064532585187162994848009574585122686978465536439186381119346285389971015664497868787229171546936942409743491868498635940684276698436506858484119070421511331132895304993849329208393304167080010636930173614624441936828135292295563718855043520888652492240787378188287948756429859678131320313149722218900291805028338565883078467138401494859521575283099145981678792121605979857514686793130943330313770376111649808959951136893973580829458877602381614555916176041877040780308989402930592924948451008392659903891078302468096510073054561268220357432569293521497131830922044988516040316696461890252658891937812137077698326841028526045017829237605777094083838852105281119467999132979162337968258864765593801439178690440189871328494739303638814863268844841313736550299766837110548953858269079978575300077403214500257399917385654509269855280076866593554001298152333401922224966669026142300705073497006787091546588638315672230373963619276949115860857537915195517971528759783091402967302621538207894751586345254545658890812158326957740026680361046254661091788809833141626179961244339817613410573958847339378373187693619441538637775379117387231005821087272257887575588666415472628576633153140593663370835676581874735924421676041910321962267240021638441198216858885623188152818149414018042869563767627928969512731857081428011617730744208084126530327493218283188330237634627043385971325726381941006315313020942714598258310683987876910665727287731188639790124681293867861646234928635170596055347748876320543460563710598217691119774835137262721653203268760315335132369835811988465882558753871413950567187950888491278778708993179769359589212223140338911648929104812059421030013898069576284523018150963896668952801120411674791778429096110671166995381822858827748143835556358862070943257843870596573540637319545893499686427023193503527501212077208886574386377910506614773834017585095571295086219028523946090089278153258661151101652418776500307460700083973906927280045011707987505449833896480127873306359431148607415078923831461270087142319684009331203361762220712446499023695587145239836507803911814882161915063108199421454462180373951176940080591277458243306990424535174590565608117888570339351020282643416147931579001026071809341119535798341882348591866021341816283858477697743453078021468501089065876249217344973525146889733762953917240334288868075485850723093607653871568457710689630971657574294402882195859207485343534840350175651994341004124212724981721578117943060373849165947808571471891508735080997298866016147935597339741326699207245466538208100666522864891933314470052847443745362970439547486838679354253152706760662870260695765537519959477479236623427719242905028476959368576490782805659127625261440007910351269462263618011075338316276799690902972302414342081963789515076393143995054867467145996471721122262153391442956285601802605476397557566559450267605107458855443216396947043236466552312718601892346433056767222165007631025666329375837184765840658676984284898489439007535391352662806494262031897013250263783539285102395455285405586348388035372015632823519802485179765492948982546612526153800948715917650443950850763563724409276334725236486125780651617723156297129367448296429400501658864742787022386577801752109777995373643436257912637333933711048378945228596862424214289259619104637366641443538704731253676073244211636412676550633624664133121478778776111533665195661274450601309176889593940105997537866071103429448805421406604198813742993998233955753216345778991410288420119110747377910893206478621845275458581206595814392549010399578388394455596558399177559012440595257880737519332053733088704345198907442504378387452888582487598736159677336669375019252418034169126276810242464452009879946391356983340052344519479660054088553061453767842109352665840972474712870381811517528648921344229102378851273254037244071546208559258016189186158802618570846122407575805735030986258251196917519792348510966228747838123198341870470991715526936441643149113847485699378420789111139857383241164952960343291754521639145070355966654445817548644348650273031627831871495744424251118353351051222881461179282505742625883322828268681808442704003090495155928716789727084061892349514338658395371297819336306263603709114744903843904591124462052342531061608033894644700791602929417769154835809424656043301921926405984733455919977169569562649687764138614136181729139101193691064746253805507687858731219097977446277929944857559114214479159089992700650344331766417996128520977707702114605234270300941059024559973626552283595879490977810574097596817932342925187862210088032263679453624373251399815432164509970923732755899633213695217078969529292889501568936211411421832673008676464711723258486764387687868195022143610469168114413816692593499503362135502793949170225772523155861923786490569333307891612009190037098908912854496416224567772506087995574471691774742094533496432215025256857202341100016144546835039088618003145675471911061031651823919108846562898430344438333412649773016774319745863312578255622591730450250454049581974952521575677756510885726227820993325710142791982262002791705187233974393058765755898055574917073353369401448705875691147668673637031620118190837133060462247401748650653817816500141693022196589991967774605824182010372414700031888464714730496618956601046353021989592591742320641287758643958518097449941404447696168491179816629429129771105998930717437864821069172069443993350771034571599696711991967256208924709477644996763434696889220399136009975669525716352049291399547346304876650638301401301618762213031777838267774121901738861940788081719129371439913104498129403320815411623744192827189151602680112510742587865501506308134080999842352934760391759277333729625584783607717610692317409767482322713453654931345215458341138477248249917257282357085856207131022595584665377353030892790299412394424181800230114513106055999290234221809887012605716481381181377152610833997359650142432360208921996034048

/-- `random.seed(n)` for a small non-negative int seed: the key is the
single 32-bit word `[n]`, and the output index is left at `N` so the first
draw starts a fresh block. -/
def mtFromSeed (n : ℕ) : MT := ⟨init_by_array [n], mtN⟩

/-- Word `kk` of the next state block (`genrand_uint32`'s regeneration
step).  The single `% mtN` formula covers the three loops of the reference
code, which updates the 624-word array in place, left to right. -/
def twistStep (w : ℕ) (kk : ℕ) : ℕ :=
  let y := (getW w kk &&& 2147483648) ||| (getW w ((kk + 1) % mtN) &&& 2147483647)
  let mag := if y % 2 = 1 then 2567483615 else 0
  setW w kk (getW w ((kk + mtM) % mtN) ^^^ (y >>> 1) ^^^ mag)

/-- `genrand_uint32`.  The reference implementation regenerates all 624
words at once when the block is exhausted and then plays them out one per
call; because that regeneration updates the array in place left to right,
regenerating just the word about to be played (one `twistStep` per call)
reads exactly the same mixture of old- and new-block words and yields the
identical output stream, without the 624-deep evaluation per draw. -/
def genrand32 (s : MT) : ℕ × MT :=
  let i := if s.idx ≥ mtN then 0 else s.idx
  let w := twistStep s.words i
  let y0 := getW w i
  let y1 := y0 ^^^ (y0 >>> 11)
  let y2 := y1 ^^^ ((y1 <<< 7) &&& 2636928640)
  let y3 := y2 ^^^ ((y2 <<< 15) &&& 4022730752)
  let y4 := y3 ^^^ (y3 >>> 18)
  (y4, MT.mk w (i + 1))

/-- Halving loop for `bitLength`; the fuel (first argument) only needs to
exceed the bit length, and `bitLength` passes the number itself. -/
def bitLenGo : ℕ → ℕ → ℕ
  | 0, _ => 0
  | fuel + 1, m => if m = 0 then 0 else bitLenGo fuel (m / 2) + 1

/-- `int.bit_length()`. -/
def bitLength (n : ℕ) : ℕ := bitLenGo n n

/-- Least `t` with `m ≤ 4^t`, i.e. `⌈log₄ m⌉` for `m ≥ 1`: the successive
search loop, with fuel (first argument) far exceeding any reachable
exponent. -/
def clog4Go : ℕ → ℕ → ℕ → ℕ
  | 0, _, _ => 0
  | fuel + 1, m, t => if m ≤ 4 ^ t then t else clog4Go fuel m (t + 1)

/-- `⌈log₄ m⌉` (`= 0` for `m ≤ 1`). -/
def clog4 (m : ℕ) : ℕ := clog4Go m m 0

/-- `getrandbits(k)` for `k ≤ 32`: the top `k` bits of one draw. -/
def getrandbits (k : ℕ) (s : MT) : ℕ × MT :=
  let r := genrand32 s
  (r.1 >>> (32 - k), r.2)

/-- The rejection loop of `Random._randbelow_with_getrandbits`: draw `k`
bit numbers until one is `< n`.  The source loops without bound, certain
to terminate only probabilistically; the embedding carries explicit fuel
and returns `none` when the fuel is exhausted. -/
def randbelowGo (k n : ℕ) : ℕ → MT → Option (ℕ × MT)
  | 0, _ => none
  | fuel + 1, s =>
    let r := getrandbits k s
    if r.1 < n then some (r.1, r.2) else randbelowGo k n fuel r.2

/-- `Random._randbelow(n)`: `k = n.bit_length()`, then the rejection
loop. -/
def randbelow (fuel n : ℕ) (s : MT) : Option (ℕ × MT) :=
  randbelowGo (bitLength n) n fuel s

/-- Pool branch of `random.sample` (taken when the population is small):
the source keeps a full `pool` list with the invariant "non-selected at
pool[0 : n-i]" (its own comment) and runs
`j = _randbelow(n-i); result[i] = pool[j]; pool[j] = pool[n-i-1]`.
Positions `≥ n-i` are never read again, so the state here is exactly that
live prefix: slot `j` is overwritten by the last live element and the live
region shrinks by one, which is `(pool.set j xlast).dropLast`. -/
def samplePool {α : Type} (fuel : ℕ) : ℕ → List α → MT → Option (List α × MT)
  | 0, _, s => some ([], s)
  | rem + 1, pool, s =>
    match randbelow fuel pool.length s with
    | none => none
    | some (j, s1) =>
      match pool.get? j, pool.get? (pool.length - 1) with
      | some xj, some xlast =>
        match samplePool fuel rem ((pool.set j xlast).dropLast) s1 with
        | some (res, s2) => some (xj :: res, s2)
        | none => none
      | _, _ => none

/-- Set branch of `random.sample` (taken when the population is large):
draw indices into the full population, rejecting indices already selected.
The outer fuel bounds the total number of draws (the source's
`while j in selected` loop is unbounded). -/
def sampleSet {α : Type} (population : List α) (fuelR : ℕ) :
    ℕ → ℕ → List ℕ → MT → Option (List α × MT)
  | _, 0, _, s => some ([], s)
  | 0, _ + 1, _, _ => none
  | fuel + 1, rem + 1, selected, s =>
    match randbelow fuelR population.length s with
    | none => none
    | some (j, s1) =>
      if j ∈ selected then sampleSet population fuelR fuel (rem + 1) selected s1
      else
        match population.get? j with
        | none => none
        | some x =>
          match sampleSet population fuelR fuel rem (j :: selected) s1 with
          | some (res, s2) => some (x :: res, s2)
          | none => none

/-- Fuel used for the rejection loops; `none` from the sampler means the
(probabilistically impossible) event that this many consecutive draws were
all rejected. -/
def SAMPLE_FUEL : ℕ := 10000

/-- `random.sample(population, k)` (CPython 3.11 `random.py`).  The table
threshold `setsize` uses `ceil(log(k*3, 4))`, computed by the source in
floating point; `3*k` is never an exact power of 4 (powers of 4 are not
divisible by 3), so the exact `Nat.clog 4 (3*k)` agrees with the float
computation on every reachable `k`. -/
def sample {α : Type} (population : List α) (k : ℕ) (s : MT) :
    Option (List α × MT) :=
  let n := population.length
  if k > n then none
  else
    let setsize := 21 + (if k > 5 then 4 ^ clog4 (3 * k) else 0)
    if n ≤ setsize then samplePool SAMPLE_FUEL k population s
    else sampleSet population SAMPLE_FUEL SAMPLE_FUEL k [] s

/-- `grid_search` lines 191–201: build the full cartesian product of the
selected axes; when it exceeds the budget, reseed the global generator
with the fixed seed 42 and draw `random.sample(combinations, budget)`. -/
def gridCombos {α : Type} (paramValues : List (List α)) (maxExperiments : ℕ) :
    Option (List (List α)) :=
  let combos := cartProd paramValues
  if combos.length > maxExperiments then
    (sample combos maxExperiments (mtFromSeed 42)).map Prod.fst
  else some combos

/-!  Specification-side characterizations, for comparison with the code. -/

/-- The shared best-tracking update of all the sweep scripts, folded from
`(best = 0.0, holder = None)`: the holder is replaced only on a strictly
greater objective. -/
def bestFold {β : Type} (trials : List (β × ℚ)) : ℚ × Option β :=
  trials.foldl (fun b t => if t.2 > b.1 then (t.2, some t.1) else b) (0, none)

/-- Specification side: the maximum objective among the trials (0 for an
empty list; the sentinel floor matches the `0.0` initialization). -/
def maxAcc {β : Type} (trials : List (β × ℚ)) : ℚ :=
  trials.foldl (fun m t => max m t.2) 0

/-- Specification side: the earliest trial attaining the maximum
objective. -/
def firstMax {β : Type} (trials : List (β × ℚ)) : Option (β × ℚ) :=
  trials.find? (fun t => decide (t.2 = maxAcc trials))

/-- Specification side (spec §4.4): the best pointer after appending all
records — the earliest maximum-objective record; `none` exactly when no
record beats the `0.0` initialization. -/
def ledgerBestSpec {β : Type} (trials : List (β × ℚ)) : Option β :=
  if 0 < maxAcc trials then (firstMax trials).map Prod.fst else none

/-!  `optimize_edge_fine.py` (the same structure is `optimize_k.py` with
`k` in place of the threshold). -/

/-- `optimize_edge_fine.run_experiment(threshold)` reduced to its
observable outcome: the returned accuracy and whether the output text was
written.  Its single generic `except` catches every failure —
`TimeoutExpired` included — and returns the sentinel without writing the
output file; the output file is written only on a normal return. -/
def edgeFine_run_experiment : ProcOutcome → ℚ × Bool
  | .completed out => (out.accuracy.getD 0, true)
  | .timedOut => (0, false)
  | .raised => (0, false)

/-- The mutable state of `optimize_edge_fine.main`'s sweep loop. -/
structure EdgeFineState where
  results : List (ℚ × ℚ)
  best_threshold : Option ℚ
  best_accuracy : ℚ
deriving DecidableEq, Repr

/-- One iteration of the `for threshold in thresholds` loop (lines
135–144): record `(threshold, accuracy)`, update the best only on a
strictly greater accuracy. -/
def edgeFineStep (s : EdgeFineState) (t : ℚ × ℚ) : EdgeFineState :=
  let s1 := { s with results := s.results ++ [t] }
  if t.2 > s1.best_accuracy then
    { s1 with best_accuracy := t.2, best_threshold := some t.1 }
  else s1

/-- `optimize_edge_fine.main`'s sweep: `best_threshold = None`,
`best_accuracy = 0.0`, then the loop. -/
def edgeFineMain (trials : List (ℚ × ℚ)) : EdgeFineState :=
  trials.foldl edgeFineStep ⟨[], none, 0⟩

/-!  The multi-phase campaign of `hyperparameter_optimization.main`. -/

/-- The phase-2 axes passed to `grid_search` by `main` (lines 287–290):
`similarity_threshold` and `max_patterns` only. -/
def phase2Names : List String := ["similarity_threshold", "max_patterns"]

def phase2Values : List (List ℚ) :=
  [[mkRat 6 10, mkRat 7 10, mkRat 75 100, mkRat 8 10], [75, 100, 150]]

/-- Every configuration phase 2 evaluates: the product of the phase-2 axes
(12 ≤ the budget 12, so no subsampling), each combination zipped with the
axis names, completed by `full_params` and materialized by
`create_config`.  Nothing in this pipeline consults the phase-1 best. -/
def phase2Configs : List Config :=
  (cartProd phase2Values).map
    (fun combo => create_config (full_params (phase2Names.zip combo)))

/-- One possible phase-1 outcome: the best assignment found by the phase-1
grid over `edge_threshold ∈ [0.10, 0.15, 0.20, 0.25]` and
`k_neighbors ∈ [3, 5, 7, 9]`, here the corner `(0.10, 3)`. -/
def phase1BestExample : Params :=
  full_params [("edge_threshold", mkRat 10 100), ("k_neighbors", 3)]

/-!  The Optuna studies (`optimize_saccades.py`,
`optimize_saccades_focused.py`). -/

/-- The trial-side events an Optuna objective can perform, in program
order.  `reportIntermediate` stands for `trial.report(value, step)`, the
only channel through which the configured `MedianPruner` is ever consulted
(via `trial.should_prune`); the library is outside this repository and is
modelled at that contract level. -/
inductive StudyEvent where
  | suggest (name : String)
  | saveConfig
  | runEval
  | reportIntermediate (step : ℕ) (value : ℚ)
deriving DecidableEq, Repr

/-- The straight-line event trace of `optimize_saccades.objective` (lines
58–124): eleven `trial.suggest_*` calls, the temporary-config write, then
the single call to `run_experiment`.  No `trial.report` and no
`trial.should_prune` appears anywhere in the body. -/
def saccadesObjectiveTrace : List StudyEvent :=
  [.suggest "window_size_ms", .suggest "similarity_threshold",
   .suggest "max_patterns", .suggest "layer23_neurons",
   .suggest "layer5_neurons", .suggest "neurons_per_class",
   .suggest "lateral_connectivity", .suggest "recurrent_connectivity",
   .suggest "recurrent_weight", .suggest "gabor_threshold",
   .suggest "fixation_duration_ms", .saveConfig, .runEval]

/-- The straight-line event trace of `optimize_saccades_focused.objective`
(lines 55–133): eight `trial.suggest_*` calls, the config write, the
single evaluation; again no `trial.report`. -/
def focusedObjectiveTrace : List StudyEvent :=
  [.suggest "gabor_threshold", .suggest "recurrent_weight",
   .suggest "similarity_threshold", .suggest "layer23_neurons",
   .suggest "layer5_neurons", .suggest "fixation_duration_ms",
   .suggest "recurrent_connectivity", .suggest "lateral_connectivity",
   .saveConfig, .runEval]

def isReport : StudyEvent → Bool
  | .reportIntermediate _ _ => true
  | _ => false

/-- A trial's evaluation can be cut short by the pruner only if some
intermediate report precedes the completion of the external evaluation in
its trace. -/
def interruptedBeforeEval (trace : List StudyEvent) : Bool :=
  (trace.takeWhile (fun e => !(e == StudyEvent.runEval))).any isReport

/-- `study.optimize(objective, n_trials=50)` in `optimize_saccades.main`:
every one of the 50 trials runs the same straight-line body. -/
def saccadesStudyTraces : List (List StudyEvent) :=
  List.replicate 50 saccadesObjectiveTrace

/-- `study.optimize(objective, n_trials=30)` in
`optimize_saccades_focused.main`. -/
def focusedStudyTraces : List (List StudyEvent) :=
  List.replicate 30 focusedObjectiveTrace

/-!  ## Theorems -/

set_option maxRecDepth 12000

/-- Splitting a counted loop. -/
theorem loopN_add {σ : Type} (f : σ → ℕ → σ) :
    ∀ (a b i : ℕ) (s : σ), loopN f i (a + b) s = loopN f (i + a) b (loopN f i a s) := by
  intro a
  induction a with
  | zero => intro b i s; simp [loopN]
  | succ n ih =>
    intro b i s
    have h1 : n + 1 + b = (n + b) + 1 := by omega
    rw [h1]
    have h2 : loopN f i ((n + b) + 1) s = loopN f (i + 1) (n + b) (f s i) := rfl
    have h3 : loopN f i (n + 1) s = loopN f (i + 1) n (f s i) := rfl
    rw [h2, h3, ih]
    have h4 : i + 1 + n = i + (n + 1) := by omega
    rw [h4]

/-- First half of the `init_genrand` recurrence, against the recorded
checkpoint. -/
theorem ignA : loopN ignStep 0 311 (setW 0 0 (19650218 &&& mask32)) = mtI1 := by decide

/-- `init_genrand(19650218)`, the state `init_by_array` starts from. -/
theorem ign_eq : init_genrand 19650218 = mtW0 := by
  unfold init_genrand
  have h : mtN - 1 = 311 + 312 := rfl
  rw [h, loopN_add, ignA]
  decide

/-- First half of the first `init_by_array` mixing loop for key `[42]`. -/
theorem iba1A : loopN (ibaStep1 [42]) 0 312 (mtW0, 1, 0) = (mtI2, 313, 0) := by decide

/-- The complete first mixing loop for key `[42]`. -/
theorem iba1_eq :
    loopN (ibaStep1 [42]) 0 (max mtN (List.length [42])) (mtW0, 1, 0) = (mtW1, 2, 0) := by
  have h : max mtN (List.length [42]) = 312 + 312 := rfl
  rw [h, loopN_add, iba1A]
  decide

/-- First half of the second `init_by_array` mixing loop. -/
theorem iba2A : loopN ibaStep2 0 311 (mtW1, 2, 0) = (mtI3, 313, 0) := by decide

/-- The complete second mixing loop. -/
theorem iba2_eq : loopN ibaStep2 0 (mtN - 1) (mtW1, 2, 0) = (mtW2, 2, 0) := by
  have h : mtN - 1 = 311 + 312 := rfl
  rw [h, loopN_add, iba2A]
  decide

/-- The full seeding computation of `random.seed(42)`. -/
theorem iba42 : init_by_array [42] = mtSeed42 := by
  unfold init_by_array
  rw [ign_eq, iba1_eq, iba2_eq]
  decide

/-- The generator state `grid_search` samples from. -/
theorem seed42_eq : mtFromSeed 42 = ⟨mtSeed42, mtN⟩ := by
  unfold mtFromSeed
  rw [iba42]

/-- The oversubscribed demo grid (9 combinations, budget 5): the exact
subsample the seeded generator produces — matching what CPython's
`random.seed(42); random.sample(combos, 5)` returns on the same input. -/
theorem gridCombos_demo :
    gridCombos [[(1:ℚ),2,3],[1,2,3]] 5 = some [[1,2],[1,1],[2,3],[1,3],[3,3]] := by
  have h : gridCombos [[(1:ℚ),2,3],[1,2,3]] 5
      = (sample (cartProd [[(1:ℚ),2,3],[1,2,3]]) 5 (mtFromSeed 42)).map Prod.fst := rfl
  rw [h, seed42_eq]
  decide

/-!  ### The best-tracking fold -/

/-- A running-max fold is bounded below by its seed. -/
theorem le_foldl_max {β : Type} (l : List (β × ℚ)) :
    ∀ q : ℚ, q ≤ l.foldl (fun m t => max m t.2) q := by
  induction l with
  | nil => intro q; exact le_refl q
  | cons t l ih => intro q; exact le_trans (le_max_left q t.2) (ih (max q t.2))

theorem maxAcc_nonneg {β : Type} (l : List (β × ℚ)) : 0 ≤ maxAcc l :=
  le_foldl_max l 0

/-- Every recorded objective is at most the running max. -/
theorem mem_le_foldl_max {β : Type} (l : List (β × ℚ)) :
    ∀ (q : ℚ) (x : β × ℚ), x ∈ l → x.2 ≤ l.foldl (fun m t => max m t.2) q := by
  induction l with
  | nil => intro q x hx; cases hx
  | cons t l ih =>
    intro q x hx
    rcases List.mem_cons.mp hx with h | h
    · subst h; exact le_trans (le_max_right q x.2) (le_foldl_max l (max q x.2))
    · exact ih (max q t.2) x h

theorem mem_le_maxAcc {β : Type} {l : List (β × ℚ)} {x : β × ℚ} (hx : x ∈ l) :
    x.2 ≤ maxAcc l :=
  mem_le_foldl_max l 0 x hx

theorem maxAcc_append {β : Type} (l : List (β × ℚ)) (t : β × ℚ) :
    maxAcc (l ++ [t]) = max (maxAcc l) t.2 := by
  unfold maxAcc
  rw [List.foldl_append]
  rfl

/-- A strictly positive maximum is attained by some record. -/
theorem maxAcc_attained {β : Type} (l : List (β × ℚ)) (h : 0 < maxAcc l) :
    ∃ x ∈ l, x.2 = maxAcc l := by
  induction l using List.reverseRecOn with
  | nil => exact absurd h (lt_irrefl 0)
  | append_singleton l t ih =>
    rw [maxAcc_append] at h ⊢
    rcases le_or_lt t.2 (maxAcc l) with hc | hc
    · rw [max_eq_left hc] at h ⊢
      obtain ⟨x, hx, he⟩ := ih h
      exact ⟨x, List.mem_append_left _ hx, he⟩
    · rw [max_eq_right (le_of_lt hc)]
      exact ⟨t, List.mem_append_right _ (List.mem_singleton.mpr rfl), rfl⟩

/-- The shared best-tracking fold computes exactly the specification-side
pair: the maximum objective, and the earliest record attaining it when
that maximum beats the `0.0` initialization. -/
theorem bestFold_eq {β : Type} (l : List (β × ℚ)) :
    bestFold l = (maxAcc l, ledgerBestSpec l) := by
  induction l using List.reverseRecOn with
  | nil => simp [bestFold, maxAcc, ledgerBestSpec]
  | append_singleton l t ih =>
    have hstep : bestFold (l ++ [t])
        = if t.2 > (bestFold l).1 then (t.2, some t.1) else bestFold l := by
      unfold bestFold
      rw [List.foldl_append]
      rfl
    rw [hstep, ih]
    by_cases hc : t.2 > maxAcc l
    · rw [if_pos (show t.2 > (maxAcc l, ledgerBestSpec l).1 from hc)]
      have hmax : maxAcc (l ++ [t]) = t.2 := by
        rw [maxAcc_append]
        exact max_eq_right (le_of_lt hc)
      have hpos : 0 < t.2 := lt_of_le_of_lt (maxAcc_nonneg l) hc
      have hnone : (l.find? fun x => decide (x.2 = maxAcc (l ++ [t]))) = none := by
        rw [List.find?_eq_none]
        intro x hx
        simp only [decide_eq_true_eq, hmax]
        exact ne_of_lt (lt_of_le_of_lt (mem_le_maxAcc hx) hc)
      have hbest : ledgerBestSpec (l ++ [t]) = some t.1 := by
        unfold ledgerBestSpec firstMax
        rw [if_pos (hmax ▸ hpos), List.find?_append, hnone]
        simp [List.find?, hmax]
      rw [hmax, hbest]
    · have hle : t.2 ≤ maxAcc l := not_lt.mp hc
      rw [if_neg (show ¬ t.2 > (maxAcc l, ledgerBestSpec l).1 from hc)]
      have hmax : maxAcc (l ++ [t]) = maxAcc l := by
        rw [maxAcc_append]
        exact max_eq_left hle
      have hbest : ledgerBestSpec (l ++ [t]) = ledgerBestSpec l := by
        unfold ledgerBestSpec firstMax
        rw [hmax]
        by_cases hp : 0 < maxAcc l
        · rw [if_pos hp, if_pos hp]
          obtain ⟨x, hx, he⟩ := maxAcc_attained l hp
          have hsome : (l.find? fun y => decide (y.2 = maxAcc l)).isSome :=
            List.find?_isSome.mpr ⟨x, hx, decide_eq_true he⟩
          obtain ⟨o, ho⟩ := Option.isSome_iff_exists.mp hsome
          rw [List.find?_append, ho]
          rfl
        · rw [if_neg hp, if_neg hp]
      rw [hmax, hbest]

/-- One `grid_search` loop iteration, projected to the best-tracking
pair. -/
theorem gridStep_best (s : OptState) (t : Params × ℚ) :
    ((gridStep s t).best_accuracy, (gridStep s t).best_config)
      = if t.2 > s.best_accuracy then (t.2, some t.1)
        else (s.best_accuracy, s.best_config) := by
  unfold gridStep save_results
  by_cases hc : t.2 > s.best_accuracy
  · simp [hc]
  · simp [hc]

/-- The whole `grid_search` loop, projected to the best-tracking pair,
is the shared fold. -/
theorem runTrials_foldPair : ∀ (ts : List (Params × ℚ)) (s : OptState),
    ((ts.foldl gridStep s).best_accuracy, (ts.foldl gridStep s).best_config)
      = ts.foldl (fun b t => if t.2 > b.1 then (t.2, some t.1) else b)
          (s.best_accuracy, s.best_config) := by
  intro ts
  induction ts with
  | nil => intro s; rfl
  | cons t ts ih =>
    intro s
    rw [List.foldl_cons, List.foldl_cons, ih, gridStep_best]

/-- `grid_search`'s running best, characterized. -/
theorem runTrials_best (ts : List (Params × ℚ)) :
    (runTrials ts).best_accuracy = maxAcc ts
      ∧ (runTrials ts).best_config = ledgerBestSpec ts := by
  have h := runTrials_foldPair ts initState
  have h2 : ts.foldl (fun b t => if t.2 > b.1 then (t.2, some t.1) else b)
      (initState.best_accuracy, initState.best_config) = bestFold ts := rfl
  rw [h2, bestFold_eq] at h
  exact ⟨congrArg Prod.fst h, congrArg Prod.snd h⟩

/-- One `optimize_edge_fine` loop iteration, projected likewise. -/
theorem edgeFineStep_best (s : EdgeFineState) (t : ℚ × ℚ) :
    ((edgeFineStep s t).best_accuracy, (edgeFineStep s t).best_threshold)
      = if t.2 > s.best_accuracy then (t.2, some t.1)
        else (s.best_accuracy, s.best_threshold) := by
  unfold edgeFineStep
  by_cases hc : t.2 > s.best_accuracy
  · simp [hc]
  · simp [hc]

theorem edgeFine_foldPair : ∀ (ts : List (ℚ × ℚ)) (s : EdgeFineState),
    ((ts.foldl edgeFineStep s).best_accuracy, (ts.foldl edgeFineStep s).best_threshold)
      = ts.foldl (fun b t => if t.2 > b.1 then (t.2, some t.1) else b)
          (s.best_accuracy, s.best_threshold) := by
  intro ts
  induction ts with
  | nil => intro s; rfl
  | cons t ts ih =>
    intro s
    rw [List.foldl_cons, List.foldl_cons, ih, edgeFineStep_best]

/-- `optimize_edge_fine.main`'s running best, characterized. -/
theorem edgeFine_best (ts : List (ℚ × ℚ)) :
    (edgeFineMain ts).best_accuracy = maxAcc ts
      ∧ (edgeFineMain ts).best_threshold = ledgerBestSpec ts := by
  have h := edgeFine_foldPair ts ⟨[], none, 0⟩
  have h2 : ts.foldl (fun b t => if t.2 > b.1 then (t.2, some t.1) else b) (0, none)
      = bestFold ts := rfl
  rw [h2, bestFold_eq] at h
  exact ⟨congrArg Prod.fst h, congrArg Prod.snd h⟩

/-- If every trial returned the sentinel, the maximum stays at the
initialization value 0. -/
theorem maxAcc_zero {β : Type} (l : List (β × ℚ)) (h : ∀ x ∈ l, x.2 = 0) :
    maxAcc l = 0 := by
  induction l with
  | nil => rfl
  | cons t l ih =>
    have ht : t.2 = 0 := h t (List.mem_cons_self t l)
    have hstep : maxAcc (t :: l) = l.foldl (fun m t => max m t.2) (max 0 t.2) := rfl
    rw [hstep, ht, max_self]
    exact ih (fun x hx => h x (List.mem_cons_of_mem t hx))

/-!  ### The ledger: history, ids, and persistence counters -/

/-- `gridStep` appends exactly one record, whose id is the history length
at append time, whatever the best-update does. -/
theorem gridStep_results (s : OptState) (t : Params × ℚ) :
    (gridStep s t).results = s.results ++ [⟨s.results.length, t.1, t.2⟩] := by
  unfold gridStep save_results
  by_cases hc : t.2 > s.best_accuracy
  · simp [hc]
  · simp [hc]

/-- `gridStep` performs exactly one `save_results` call: both persisted
artifacts are written once per trial. -/
theorem gridStep_saves (s : OptState) (t : Params × ℚ) :
    (gridStep s t).historySaves = s.historySaves + 1
      ∧ (gridStep s t).summarySaves = s.summarySaves + 1 := by
  unfold gridStep save_results
  by_cases hc : t.2 > s.best_accuracy
  · simp [hc]
  · simp [hc]

/-- The history records exactly the submitted trials, in submission
order. -/
theorem runTrials_history : ∀ (ts : List (Params × ℚ)) (s : OptState),
    ((ts.foldl gridStep s).results).map (fun r => (r.params, r.accuracy))
      = (s.results.map (fun r => (r.params, r.accuracy))) ++ ts := by
  intro ts
  induction ts with
  | nil => intro s; simp
  | cons t ts ih =>
    intro s
    rw [List.foldl_cons, ih, gridStep_results, List.map_append]
    simp

theorem runTrials_length (ts : List (Params × ℚ)) :
    (runTrials ts).results.length = ts.length := by
  have h := runTrials_history ts initState
  have h2 := congrArg List.length h
  simpa [runTrials, initState] using h2

/-- Both persisted artifacts are written once per trial — after every
trial, not batched. -/
theorem runTrials_saves : ∀ (ts : List (Params × ℚ)) (s : OptState),
    (ts.foldl gridStep s).historySaves = s.historySaves + ts.length
      ∧ (ts.foldl gridStep s).summarySaves = s.summarySaves + ts.length := by
  intro ts
  induction ts with
  | nil => intro s; simp
  | cons t ts ih =>
    intro s
    rw [List.foldl_cons, List.length_cons]
    obtain ⟨ih1, ih2⟩ := ih (gridStep s t)
    obtain ⟨hs1, hs2⟩ := gridStep_saves s t
    exact ⟨by rw [ih1, hs1]; omega, by rw [ih2, hs2]; omega⟩

/-- Ordinal ids are the positions: monotone and gapless. -/
theorem runTrials_ids : ∀ (ts : List (Params × ℚ)) (s : OptState),
    (∀ i (h : i < s.results.length), (s.results.get ⟨i, h⟩).run_id = i) →
    ∀ i (h : i < (ts.foldl gridStep s).results.length),
      ((ts.foldl gridStep s).results.get ⟨i, h⟩).run_id = i := by
  intro ts
  induction ts with
  | nil => intro s hs; exact hs
  | cons t ts ih =>
    intro s hs
    rw [List.foldl_cons]
    apply ih
    rw [gridStep_results]
    intro i h
    rw [List.length_append, List.length_singleton] at h
    rcases lt_or_ge i s.results.length with hi | hi
    · rw [List.get_append i hi]
      exact hs i hi
    · have hieq : i = s.results.length := by omega
      subst hieq
      rw [List.get_eq_getElem, List.getElem_append_right (le_refl _)]
      simp

/-!  ### The cartesian product -/

/-- Consing a fixed head preserves occurrence counts. -/
theorem count_map_cons {α : Type} [DecidableEq α] (x : α) (c : List α) :
    ∀ L : List (List α), (L.map (x :: ·)).count (x :: c) = L.count c := by
  intro L
  induction L with
  | nil => rfl
  | cons ys L ihL =>
    rw [List.map_cons, List.count_cons, List.count_cons, ihL]
    congr 1
    simp

/-- Counting a cons-shaped combination in one odometer layer. -/
theorem count_flatMap_cons {α : Type} [DecidableEq α] (L : List (List α)) (y : α)
    (c : List α) :
    ∀ a : List α,
      (a.flatMap fun x => L.map (x :: ·)).count (y :: c) = a.count y * L.count c := by
  intro a
  induction a with
  | nil => simp
  | cons x a ih =>
    rw [List.flatMap_cons, List.count_append, ih, List.count_cons]
    by_cases hxy : x = y
    · subst hxy
      rw [count_map_cons x c L]
      simp [Nat.add_mul]
      omega
    · have hz : ((L.map (x :: ·)).count (y :: c)) = 0 := by
        rw [List.count_eq_zero]
        intro hm
        obtain ⟨xs, _, heq⟩ := List.mem_map.mp hm
        exact hxy (List.head_eq_of_cons_eq heq)
      rw [hz]
      simp [hxy]

/-- Under axis-wise distinct values, every reachable combination occurs
exactly once in the cartesian product. -/
theorem cartProd_count_one {α : Type} [DecidableEq α] :
    ∀ (axes : List (List α)), (∀ l ∈ axes, l.Nodup) →
      ∀ c ∈ cartProd axes, (cartProd axes).count c = 1 := by
  intro axes
  induction axes with
  | nil =>
    intro _ c hc
    have hc2 : c = [] := by simpa [cartProd] using hc
    subst hc2
    rfl
  | cons a rest ih =>
    intro hnd c hc
    have hform : cartProd (a :: rest) = a.flatMap fun x => (cartProd rest).map (x :: ·) := rfl
    rw [hform] at hc ⊢
    obtain ⟨x, hxa, hc2⟩ := List.mem_flatMap.mp hc
    obtain ⟨xs, hxs, heq⟩ := List.mem_map.mp hc2
    subst heq
    rw [count_flatMap_cons,
      List.count_eq_one_of_mem (hnd a (List.mem_cons_self a rest)) hxa,
      ih (fun l hl => hnd l (List.mem_cons_of_mem a hl)) xs hxs]

/-!  ### The seeded subsampler -/

/-- The rejection loop only returns draws below its bound. -/
theorem randbelowGo_lt (k n : ℕ) :
    ∀ (fuel : ℕ) (s : MT) (j : ℕ) (s' : MT),
      randbelowGo k n fuel s = some (j, s') → j < n := by
  intro fuel
  induction fuel with
  | zero =>
    intro s j s' h
    exact absurd h (by simp [randbelowGo])
  | succ fuel ih =>
    intro s j s' h
    have hunf : randbelowGo k n (fuel + 1) s
        = if (getrandbits k s).1 < n then some ((getrandbits k s).1, (getrandbits k s).2)
          else randbelowGo k n fuel (getrandbits k s).2 := rfl
    rw [hunf] at h
    by_cases hc : (getrandbits k s).1 < n
    · rw [if_pos hc] at h
      simp only [Option.some.injEq, Prod.mk.injEq] at h
      obtain ⟨hj, -⟩ := h
      exact hj ▸ hc
    · rw [if_neg hc] at h
      exact ih _ j s' h

theorem randbelow_lt (fuel n : ℕ) (s : MT) (j : ℕ) (s' : MT)
    (h : randbelow fuel n s = some (j, s')) : j < n :=
  randbelowGo_lt _ n fuel s j s' h

/-- The pool step of the sampler, as a permutation: the original live pool
is exactly the picked element together with the new live pool. -/
theorem pool_swap_perm {α : Type} (pool : List α) (j : ℕ) (xj xlast : α)
    (hxj : pool.get? j = some xj) (hxl : pool.get? (pool.length - 1) = some xlast) :
    pool.Perm (xj :: (pool.set j xlast).dropLast) := by
  obtain ⟨hj, hgetj⟩ := List.get?_eq_some.mp hxj
  have hsplit : pool = pool.take j ++ pool.get ⟨j, hj⟩ :: pool.drop (j + 1) := by
    conv_lhs => rw [← List.take_append_drop j pool]
    rw [List.drop_eq_get_cons hj]
  have hset : pool.set j xlast = pool.take j ++ xlast :: pool.drop (j + 1) :=
    List.set_eq_take_cons_drop xlast hj
  rcases Nat.lt_or_ge j (pool.length - 1) with hjlt | hjge
  · have hdnenil : pool.drop (j + 1) ≠ [] := by
      intro hne
      have hl := List.length_drop (j + 1) pool
      rw [hne] at hl
      simp at hl
      omega
    obtain ⟨D, z, hdz⟩ := (List.eq_nil_or_concat (pool.drop (j + 1))).resolve_left hdnenil
    rw [List.concat_eq_append] at hdz
    have hzl : z = xlast := by
      have h1 : pool.getLast? = some xlast := by
        rw [List.getLast?_eq_get?]
        exact hxl
      have h2 : pool.getLast? = some z := by
        conv_lhs => rw [hsplit, hdz]
        rw [show pool.take j ++ pool.get ⟨j, hj⟩ :: (D ++ [z])
            = (pool.take j ++ pool.get ⟨j, hj⟩ :: D) ++ [z] by simp]
        exact List.getLast?_concat _
      rw [h1] at h2
      exact (Option.some.inj h2).symm
    rw [hzl] at hdz
    have hdl : (pool.set j xlast).dropLast = pool.take j ++ xlast :: D := by
      rw [hset, hdz, List.dropLast_append_cons,
        List.dropLast_cons_of_ne_nil (by simp), List.dropLast_concat]
    have hpool : pool = pool.take j ++ xj :: (D ++ [xlast]) := by
      have h0 := hsplit
      rw [hgetj, hdz] at h0
      exact h0
    rw [hdl]
    set T := pool.take j with hT
    rw [hpool]
    refine List.Perm.trans List.perm_middle ?_
    refine List.Perm.cons xj ?_
    refine List.Perm.append_left T ?_
    simpa using @List.perm_middle α xlast D []
  · have hjeq : j = pool.length - 1 := by omega
    have hxx : xj = xlast := by
      rw [hjeq] at hxj
      rw [hxj] at hxl
      exact Option.some.inj hxl
    have hdrop : pool.drop (j + 1) = [] := by
      apply List.drop_of_length_le
      omega
    have hpool : pool = pool.take j ++ [xj] := by
      have h0 := hsplit
      rw [hgetj, hdrop] at h0
      exact h0
    have hdl : (pool.set j xlast).dropLast = pool.take j := by
      rw [hset, hdrop, List.dropLast_concat]
    rw [hdl]
    set T := pool.take j with hT
    rw [hpool]
    simpa using @List.perm_middle α xj T []

/-- What a successful pool-branch run guarantees: exactly the requested
number of picks, all drawn from the pool, without replacement. -/
theorem samplePool_spec {α : Type} (fuel : ℕ) :
    ∀ (rem : ℕ) (pool : List α) (s : MT) (res : List α) (s' : MT),
      samplePool fuel rem pool s = some (res, s') →
      res.length = rem ∧ (∀ x ∈ res, x ∈ pool) ∧ (pool.Nodup → res.Nodup) := by
  intro rem
  induction rem with
  | zero =>
    intro pool s res s' h
    simp only [samplePool, Option.some.injEq, Prod.mk.injEq] at h
    obtain ⟨h1, -⟩ := h
    rw [← h1]
    exact ⟨rfl, by simp, fun _ => List.nodup_nil⟩
  | succ rem ih =>
    intro pool s res s' h
    simp only [samplePool] at h
    split at h
    · exact Option.noConfusion h
    next j s1 hrb =>
      split at h
      next xj xlast hxj hxl =>
        split at h
        next res2 s2 hrec =>
          simp only [Option.some.injEq, Prod.mk.injEq] at h
          obtain ⟨hres, -⟩ := h
          subst hres
          obtain ⟨hlen, hmem, hnd⟩ := ih ((pool.set j xlast).dropLast) s1 res2 s2 hrec
          have hperm := pool_swap_perm pool j xj xlast hxj hxl
          refine ⟨by simp [hlen], ?_, ?_⟩
          · intro x hx
            rcases List.mem_cons.mp hx with h1 | h1
            · subst h1
              exact List.get?_mem hxj
            · exact hperm.mem_iff.mpr (List.mem_cons_of_mem xj (hmem x h1))
          · intro hnodup
            have hnodup2 : (xj :: (pool.set j xlast).dropLast).Nodup :=
              hperm.nodup_iff.mp hnodup
            obtain ⟨hxnot, hdlnd⟩ := List.nodup_cons.mp hnodup2
            exact List.nodup_cons.mpr ⟨fun hc => hxnot (hmem xj hc), hnd hdlnd⟩
        next hrec => exact Option.noConfusion h
      next h1 h2 => exact Option.noConfusion h

/-- What a successful set-branch run guarantees: the requested number of
picks, each at a fresh index of the population, without replacement. -/
theorem sampleSet_spec {α : Type} (population : List α) (fuelR : ℕ) :
    ∀ (fuel rem : ℕ) (selected : List ℕ) (s : MT) (res : List α) (s' : MT),
      sampleSet population fuelR fuel rem selected s = some (res, s') →
      res.length = rem
        ∧ (∀ x ∈ res, ∃ i, i ∉ selected ∧ population.get? i = some x)
        ∧ (population.Nodup → res.Nodup) := by
  intro fuel
  induction fuel with
  | zero =>
    intro rem selected s res s' h
    cases rem with
    | zero =>
      simp only [sampleSet, Option.some.injEq, Prod.mk.injEq] at h
      obtain ⟨h1, -⟩ := h
      rw [← h1]
      exact ⟨rfl, by simp, fun _ => List.nodup_nil⟩
    | succ rem => exact absurd h (by simp [sampleSet])
  | succ fuel ih =>
    intro rem selected s res s' h
    cases rem with
    | zero =>
      simp only [sampleSet, Option.some.injEq, Prod.mk.injEq] at h
      obtain ⟨h1, -⟩ := h
      rw [← h1]
      exact ⟨rfl, by simp, fun _ => List.nodup_nil⟩
    | succ rem =>
      simp only [sampleSet] at h
      split at h
      · exact Option.noConfusion h
      next j s1 hrb =>
        by_cases hjin : j ∈ selected
        · rw [if_pos hjin] at h
          exact ih (rem + 1) selected s1 res s' h
        · rw [if_neg hjin] at h
          split at h
          · exact Option.noConfusion h
          next x hx =>
            split at h
            next res2 s2 hrec =>
              simp only [Option.some.injEq, Prod.mk.injEq] at h
              obtain ⟨hres, -⟩ := h
              subst hres
              obtain ⟨hlen, hmem, hnd⟩ := ih rem (j :: selected) s1 res2 s2 hrec
              refine ⟨by simp [hlen], ?_, ?_⟩
              · intro y hy
                rcases List.mem_cons.mp hy with h1 | h1
                · subst h1
                  exact ⟨j, hjin, hx⟩
                · obtain ⟨i, hins, hgi⟩ := hmem y h1
                  exact ⟨i, fun hc => hins (List.mem_cons_of_mem j hc), hgi⟩
              · intro hnodup
                refine List.nodup_cons.mpr ⟨?_, hnd hnodup⟩
                intro hxin
                obtain ⟨i, hins, hgi⟩ := hmem x hxin
                have hij : i ≠ j := fun hc => hins (hc ▸ List.mem_cons_self j selected)
                have hii : population.get? i = population.get? j := by rw [hgi, hx]
                have hilt : i < population.length := (List.get?_eq_some.mp hgi).1
                exact hij (List.get?_inj hilt hnodup hii)
            next hrec => exact Option.noConfusion h

/-- `random.sample(population, k)`, when it returns: a `k`-element
choice of distinct positions of the population. -/
theorem sample_spec {α : Type} (population : List α) (k : ℕ) (s : MT)
    (res : List α) (s' : MT) (h : sample population k s = some (res, s')) :
    res.length = k ∧ (∀ x ∈ res, x ∈ population) ∧ (population.Nodup → res.Nodup) := by
  simp only [sample] at h
  by_cases hk : k > population.length
  · rw [if_pos hk] at h
    exact Option.noConfusion h
  · rw [if_neg hk] at h
    by_cases hss : population.length ≤ 21 + (if k > 5 then 4 ^ clog4 (3 * k) else 0)
    · rw [if_pos hss] at h
      exact samplePool_spec SAMPLE_FUEL k population s res s' h
    · rw [if_neg hss] at h
      obtain ⟨h1, h2, h3⟩ := sampleSet_spec population SAMPLE_FUEL SAMPLE_FUEL k [] s res s' h
      refine ⟨h1, ?_, h3⟩
      intro x hx
      obtain ⟨i, -, hgi⟩ := h2 x hx
      exact List.get?_mem hgi

/-- The oversubscribed branch of `grid_search`: whatever the seeded
sampler returns is `budget` distinct combinations of the grid. -/
theorem gridCombos_over {α : Type} (vals : List (List α)) (budget : ℕ)
    (hgt : (cartProd vals).length > budget) (l : List (List α))
    (h : gridCombos vals budget = some l) :
    l.length = budget ∧ (∀ c ∈ l, c ∈ cartProd vals)
      ∧ ((cartProd vals).Nodup → l.Nodup) := by
  simp only [gridCombos] at h
  rw [if_pos hgt] at h
  obtain ⟨p, hp, hmap⟩ := Option.map_eq_some'.mp h
  obtain ⟨res, s'⟩ := p
  obtain ⟨h1, h2, h3⟩ := sample_spec (cartProd vals) budget (mtFromSeed 42) res s' hp
  simp only at hmap
  rw [← hmap]
  exact ⟨h1, h2, h3⟩

/-!  ### Claims -/

/-- C1: the Evaluator never raises past its boundary: a timed-out child
yields the sentinel objective 0.0 with status `timeout`, a crashed or
unstartable child yields 0.0 with status `error`, and a completed run
whose captured output lacks the scalar accuracy marker yields 0.0 with
status `parse-failure`; `run_experiment` is total over every process
outcome, and the grid loop still appends one record per proposed trial, so
the campaign proceeds to the next trial. -/
theorem claim_c1_evaluator_boundary (pd : List (ℕ × ℚ))
    (trials : List (Params × ProcOutcome)) :
    (run_experiment .timedOut).objective = 0
      ∧ (run_experiment .timedOut).status = .timeout
      ∧ (run_experiment .raised).objective = 0
      ∧ (run_experiment .raised).status = .error
      ∧ (run_experiment (.completed ⟨none, pd⟩)).objective = 0
      ∧ (run_experiment (.completed ⟨none, pd⟩)).status = .parseFailure
      ∧ (gridLoop trials).results.length = trials.length := by
  refine ⟨rfl, rfl, rfl, rfl, rfl, rfl, ?_⟩
  unfold gridLoop
  rw [runTrials_length, List.length_map]

/-- C2: `create_config` yields a copy of the base template in which every
mirrored nested location of each of the five logical parameters equals the
assignment's single value (no divergence between mirrors), while every
other leaf keeps the base template's value — the template itself, a
constant, is never modified. -/
theorem claim_c2_config_mirrors (p : Params) :
    ((create_config p).network_edge_threshold = p.edge_threshold
      ∧ (create_config p).retina_edge_threshold = p.edge_threshold)
    ∧ ((create_config p).network_temporal_window_ms = p.temporal_window_ms
      ∧ (create_config p).neuron_window_size_ms = p.temporal_window_ms
      ∧ (create_config p).retina_temporal_window_ms = p.temporal_window_ms
      ∧ (create_config p).retina_neuron_window_size = p.temporal_window_ms)
    ∧ ((create_config p).neuron_similarity_threshold = p.similarity_threshold
      ∧ (create_config p).retina_neuron_threshold = p.similarity_threshold)
    ∧ ((create_config p).neuron_max_patterns = p.max_patterns
      ∧ (create_config p).retina_neuron_max_patterns = p.max_patterns)
    ∧ (create_config p).classification_k_neighbors = p.k_neighbors
    ∧ ((create_config p).network_grid_size = BASE_CONFIG.network_grid_size
      ∧ (create_config p).network_region_size = BASE_CONFIG.network_region_size
      ∧ (create_config p).network_num_orientations = BASE_CONFIG.network_num_orientations
      ∧ (create_config p).network_neurons_per_feature = BASE_CONFIG.network_neurons_per_feature
      ∧ (create_config p).retina_grid_size = BASE_CONFIG.retina_grid_size
      ∧ (create_config p).retina_num_orientations = BASE_CONFIG.retina_num_orientations
      ∧ (create_config p).retina_edge_operator = BASE_CONFIG.retina_edge_operator
      ∧ (create_config p).retina_encoding_strategy = BASE_CONFIG.retina_encoding_strategy
      ∧ (create_config p).training_examples_per_digit = BASE_CONFIG.training_examples_per_digit
      ∧ (create_config p).training_test_images = BASE_CONFIG.training_test_images
      ∧ (create_config p).training_num_digits = BASE_CONFIG.training_num_digits
      ∧ (create_config p).classification_strategy = BASE_CONFIG.classification_strategy
      ∧ (create_config p).classification_distance_exponent
          = BASE_CONFIG.classification_distance_exponent
      ∧ (create_config p).classification_similarity_metric
          = BASE_CONFIG.classification_similarity_metric) :=
  ⟨⟨rfl, rfl⟩, ⟨rfl, rfl, rfl, rfl⟩, ⟨rfl, rfl⟩, ⟨rfl, rfl⟩, rfl,
    ⟨rfl, rfl, rfl, rfl, rfl, rfl, rfl, rfl, rfl, rfl, rfl, rfl, rfl, rfl⟩⟩

/-- C3: after appending records R1..Rn, the ledger's best pointer is the
maximum-objective record with ties resolved to the earliest (through the
strictly-greater update rule — when no objective beats the 0.0
initialization the pointer keeps its `None` start, the case recorded by
claim C10); the history holds exactly the submitted trials in submission
order with gapless ordinal ids, and both persisted artifacts (structured
history and human-sorted summary) are written once after every single
trial, not batched. -/
theorem claim_c3_ledger (ts : List (Params × ℚ)) :
    (runTrials ts).best_accuracy = maxAcc ts
      ∧ (runTrials ts).best_config = ledgerBestSpec ts
      ∧ ((runTrials ts).results.map (fun r => (r.params, r.accuracy))) = ts
      ∧ (∀ i (h : i < (runTrials ts).results.length),
          ((runTrials ts).results.get ⟨i, h⟩).run_id = i)
      ∧ (runTrials ts).historySaves = ts.length
      ∧ (runTrials ts).summarySaves = ts.length := by
  obtain ⟨h1, h2⟩ := runTrials_best ts
  have h3 := runTrials_history ts initState
  have h4 := runTrials_ids ts initState (by intro i h; exact absurd h (by simp [initState]))
  obtain ⟨h5, h6⟩ := runTrials_saves ts initState
  exact ⟨h1, h2, by simpa [initState] using h3, h4,
    by simpa [initState] using h5, by simpa [initState] using h6⟩

/-- C3 witness: two trials tied at 70% — the earliest one becomes the
best; both artifacts were saved twice; the second record's id is 1. -/
theorem claim_c3_ledger_witness :
    (runTrials [(full_params [], 70), (phase1BestExample, 70)]).best_config
        = some (full_params [])
      ∧ (runTrials [(full_params [], 70), (phase1BestExample, 70)]).historySaves = 2
      ∧ ((runTrials [(full_params [], 70), (phase1BestExample, 70)]).results.get
          ⟨1, by decide⟩).run_id = 1 := by
  have h := claim_c3_ledger [(full_params [], 70), (phase1BestExample, 70)]
  exact ⟨h.2.1.trans (by decide), h.2.2.2.2.1, h.2.2.2.1 1 (by decide)⟩

/-- C4: when the cartesian product of the selected axes fits the budget,
grid search runs the full product — every combination exactly once, in
odometer order with the leftmost axis slowest-varying; concretely, axes
a:[1,2] and b:[10,20] with budget 10 give exactly the four visits
(1,10),(1,20),(2,10),(2,20) in that nested order. -/
theorem claim_c4_grid_full {α : Type} [DecidableEq α] (axes : List (List α)) (budget : ℕ)
    (hlen : (cartProd axes).length ≤ budget) (hnd : ∀ l ∈ axes, l.Nodup) :
    gridCombos axes budget = some (cartProd axes)
      ∧ (∀ c ∈ cartProd axes, (cartProd axes).count c = 1)
      ∧ gridCombos [[1, 2], [10, 20]] 10 = some [[1, 10], [1, 20], [2, 10], [2, 20]] := by
  refine ⟨?_, cartProd_count_one axes hnd, by decide⟩
  simp only [gridCombos]
  rw [if_neg (not_lt.mpr hlen)]

/-- C4 witness: the demo grid itself. -/
theorem claim_c4_grid_full_witness :
    gridCombos [[(1:ℕ), 2], [10, 20]] 10 = some (cartProd [[1, 2], [10, 20]])
      ∧ (cartProd [[(1:ℕ), 2], [10, 20]]).count [1, 20] = 1 := by
  have h := claim_c4_grid_full [[(1:ℕ), 2], [10, 20]] 10 (by decide) (by decide)
  exact ⟨h.1, h.2.1 [1, 20] (by decide)⟩

/-- C5: when the product exceeds the budget, grid search reseeds the
generator with the fixed seed 42 and draws `random.sample(combos,
budget)`: whatever it returns is exactly `budget` distinct combinations of
the grid — and being a pure function of the axes and budget, identical on
every rerun; the draw is not the enumeration prefix: on the 3×3 demo grid
with budget 5 the seeded subsample differs from the first five products. -/
theorem claim_c5_grid_subsample {α : Type} (axes : List (List α)) (budget : ℕ)
    (l : List (List α)) (hgt : (cartProd axes).length > budget)
    (h : gridCombos axes budget = some l) :
    l.length = budget
      ∧ (∀ c ∈ l, c ∈ cartProd axes)
      ∧ ((cartProd axes).Nodup → l.Nodup)
      ∧ gridCombos [[(1:ℚ), 2, 3], [1, 2, 3]] 5
          = some [[1, 2], [1, 1], [2, 3], [1, 3], [3, 3]]
      ∧ gridCombos [[(1:ℚ), 2, 3], [1, 2, 3]] 5
          ≠ some ((cartProd [[(1:ℚ), 2, 3], [1, 2, 3]]).take 5) := by
  obtain ⟨h1, h2, h3⟩ := gridCombos_over axes budget hgt l h
  refine ⟨h1, h2, h3, gridCombos_demo, ?_⟩
  rw [gridCombos_demo]
  decide

/-- C5 witness: the demo subsample has 5 distinct combinations. -/
theorem claim_c5_grid_subsample_witness :
    ([[1, 2], [1, 1], [2, 3], [1, 3], [3, 3]] : List (List ℚ)).length = 5
      ∧ ([[1, 2], [1, 1], [2, 3], [1, 3], [3, 3]] : List (List ℚ)).Nodup := by
  have h := claim_c5_grid_subsample [[(1:ℚ), 2, 3], [1, 2, 3]] 5
    [[1, 2], [1, 1], [2, 3], [1, 3], [3, 3]] (by decide) gridCombos_demo
  exact ⟨h.1, h.2.2.1 (by decide)⟩

/-- C6 (code bug, failing input): take phase 1's best to set
edge_threshold = 0.10 — a value phase 1's own grid proposes.  Every
configuration phase 2 evaluates still carries edge_threshold 0.15 and
k_neighbors 5, the hard-coded `grid_search` defaults, because
`full_params` never consults the phase-1 best; the spec (and the script's
own "Fine-tune around best configuration" phase-2 comment) require 0.10
to carry over unchanged. -/
theorem claim_c6_phase_carryover_bug :
    phase1BestExample.edge_threshold = mkRat 1 10
      ∧ phase2Configs.length = 12
      ∧ (phase2Configs.all fun cfg =>
          cfg.network_edge_threshold == mkRat 3 20
            && cfg.classification_k_neighbors == 5) = true
      ∧ (mkRat 1 10 ≠ mkRat 3 20) := by
  refine ⟨by decide, by decide, by decide, by decide⟩

/-- C7 (counterexample): an out-of-domain value (99 for edge_threshold,
outside its declared SEARCH_SPACE domain) is accepted and materialized
into a configuration instead of failing, and an assignment whose only
entry is an unknown parameter name is silently equivalent to the empty
assignment; no ConfigError path exists in the code. -/
theorem claim_c7_counterexample :
    ¬ inSearchSpace (full_params [("edge_threshold", 99)])
      ∧ (create_config (full_params [("edge_threshold", 99)])).network_edge_threshold = 99
      ∧ (create_config (full_params [("edge_threshold", 99)])).retina_edge_threshold = 99
      ∧ full_params [("bogus_parameter", 1)] = full_params [] := by
  refine ⟨by decide, by decide, by decide, by decide⟩

/-- C7 (amended): the mutator performs no validation at all — for every
assignment, unknown names included and domains ignored, the pipeline
totally produces a configuration whose five parameter leaves are the
assignment's values when present and the hard-coded defaults otherwise;
nothing aborts. -/
theorem claim_c7_no_validation (a : List (String × ℚ)) :
    (create_config (full_params a)).network_edge_threshold
        = lookupD a "edge_threshold" (mkRat 15 100)
      ∧ (create_config (full_params a)).classification_k_neighbors
          = lookupD a "k_neighbors" 5
      ∧ (create_config (full_params a)).neuron_similarity_threshold
          = lookupD a "similarity_threshold" (mkRat 7 10)
      ∧ (create_config (full_params a)).network_temporal_window_ms
          = lookupD a "temporal_window_ms" 200
      ∧ (create_config (full_params a)).neuron_max_patterns
          = lookupD a "max_patterns" 100 :=
  ⟨rfl, rfl, rfl, rfl, rfl⟩

/-- C8 (counterexample): on a timeout or a crashed child, no captured
output is persisted — by both runners — contradicting "always persist
captured output regardless of outcome". -/
theorem claim_c8_counterexample :
    (run_experiment .timedOut).outputSaved = false
      ∧ (run_experiment .raised).outputSaved = false
      ∧ (edgeFine_run_experiment .timedOut).2 = false := by
  refine ⟨rfl, rfl, rfl⟩

/-- C8 (amended): captured output is persisted exactly when the child
process returns normally — parse-failure runs included — and not when the
trial times out or the runner raises (the handlers return the sentinel
without writing the output file); the materialized configuration, written
before the child starts, is persisted on every path. -/
theorem claim_c8_output_persistence (out : ProcOutput) :
    (run_experiment (.completed out)).outputSaved = true
      ∧ (run_experiment .timedOut).outputSaved = false
      ∧ (run_experiment .raised).outputSaved = false
      ∧ (∀ o : ProcOutcome, (run_experiment o).configSaved = true)
      ∧ (edgeFine_run_experiment (.completed out)).2 = true
      ∧ (edgeFine_run_experiment .timedOut).2 = false := by
  refine ⟨rfl, rfl, rfl, ?_, rfl, rfl⟩
  intro o
  cases o <;> rfl

/-- C9: every trial of both Optuna studies runs the same straight-line
objective body, which performs no intermediate report; since the
configured median pruner is consulted only at `trial.report` checkpoints,
no trial's evaluation is ever interrupted — the external run completes in
every trial, and pruning reduces to a whole-trial decision made only after
the complete objective is known. -/
theorem claim_c9_pruning_degenerates (tr : List StudyEvent)
    (h : tr ∈ saccadesStudyTraces ∨ tr ∈ focusedStudyTraces) :
    tr.countP isReport = 0
      ∧ interruptedBeforeEval tr = false
      ∧ StudyEvent.runEval ∈ tr := by
  rcases h with h | h
  · rw [List.eq_of_mem_replicate h]
    refine ⟨by decide, by decide, by decide⟩
  · rw [List.eq_of_mem_replicate h]
    refine ⟨by decide, by decide, by decide⟩

/-- C9 witness: the saccades objective trace itself. -/
theorem claim_c9_witness :
    saccadesObjectiveTrace.countP isReport = 0
      ∧ interruptedBeforeEval saccadesObjectiveTrace = false := by
  have h := claim_c9_pruning_degenerates saccadesObjectiveTrace (Or.inl (by decide))
  exact ⟨h.1, h.2.1⟩

/-- C10: a sentinel-objective trial can never become the best: with the
running best initialized to 0.0 and no holder, and updates only on a
strictly greater objective, a search whose every trial returns 0.0 ends
with best_config None (grid search) and best_threshold None (the edge
sweep); conversely a recorded best always comes from a trial with strictly
positive objective. -/
theorem claim_c10_sentinel_never_best (ts : List (Params × ℚ)) (es : List (ℚ × ℚ))
    (h1 : ∀ t ∈ ts, t.2 = 0) (h2 : ∀ e ∈ es, e.2 = 0) :
    (runTrials ts).best_config = none
      ∧ (edgeFineMain es).best_threshold = none
      ∧ (∀ (us : List (Params × ℚ)) (p : Params),
          (runTrials us).best_config = some p → ∃ t ∈ us, t.1 = p ∧ 0 < t.2) := by
  refine ⟨?_, ?_, ?_⟩
  · rw [(runTrials_best ts).2]
    unfold ledgerBestSpec
    rw [maxAcc_zero ts h1]
    simp
  · rw [(edgeFine_best es).2]
    unfold ledgerBestSpec
    rw [maxAcc_zero es h2]
    simp
  · intro us p hbest
    rw [(runTrials_best us).2] at hbest
    unfold ledgerBestSpec firstMax at hbest
    by_cases hp : 0 < maxAcc us
    · rw [if_pos hp] at hbest
      obtain ⟨t, hfind, hfst⟩ := Option.map_eq_some'.mp hbest
      have htmem := List.mem_of_find?_eq_some hfind
      have hp2 := List.find?_some hfind
      have hteq : t.2 = maxAcc us := of_decide_eq_true hp2
      exact ⟨t, htmem, hfst, hteq ▸ hp⟩
    · rw [if_neg hp] at hbest
      exact Option.noConfusion hbest

/-- C10 witness: two all-sentinel runs end with no best recorded. -/
theorem claim_c10_sentinel_never_best_witness :
    (runTrials [(full_params [], 0), (phase1BestExample, 0)]).best_config = none
      ∧ (edgeFineMain [(mkRat 155 1000, 0), (mkRat 158 1000, 0)]).best_threshold = none := by
  have h := claim_c10_sentinel_never_best
    [(full_params [], 0), (phase1BestExample, 0)] [(mkRat 155 1000, 0), (mkRat 158 1000, 0)]
    (by decide) (by decide)
  exact ⟨h.1, h.2.1⟩

end Snnfw
